import Mathlib

/-!
# Stages user interface (`stages/ui.cc`)

A shallow embedding of the front-panel controller: the button timers of
`Ui::Poll`, the mode toggle `Ui::MultiModeToggle`, the triangle generator
`Ui::FadePattern` and the LED renderer `Ui::UpdateLEDs`.

Conventions of the embedding:
* arrays indexed by a channel are functions `Nat → α`, written with
  `Function.update`;
* `for (i = 0; i < n; ++i) body` is `forLoop body n`, which runs `body 0`,
  `body 1`, ... in order;
* `int32_t` counters are `Int` and `++` wraps at 32 bits (`incr32`);
  `uint8_t` values are `Nat` reduced `% 256` where the source stores them;
* the collaborators of the class (switches, chain state, settings store, LED
  driver, clock) appear through what the code reads from them (inputs of a
  tick) and what it calls on them (call counters in the state).
-/

namespace stages

/-! ## Constants and enumerations -/

/-- Long-press threshold, `const int32_t kLongPressDuration = 500` (ui.cc:39). -/
def kLongPressDuration : Int := 500

/-- Constants used by `ui.cc` and declared in the headers it includes (`ui.h` and
the driver headers); they are parameters of the embedding. -/
structure Params where
  /-- Number of front-panel switches. -/
  kNumSwitches : Nat
  /-- Number of channels of one device. -/
  kNumChannels : Nat
  /-- Number of LEDs covered by the slider decay counters. -/
  kNumLEDs : Nat
  /-- Very-long-press threshold (an `int32_t` constant). -/
  kLongPressDurationForMultiModeToggle : Int

/-- Modelled from the spec: the enumeration `MultiMode` (declared in a header),
with the five operating modes that `ui.cc` names and the spec lists. The
persisted mode is a byte; the constructor `MULTI_MODE_INVALID` stands for any byte that is none of the five
named values (the case of the final `else` of `UpdateLEDs`). -/
inductive MultiMode
  | MULTI_MODE_STAGES
  | MULTI_MODE_STAGES_SLOW_LFO
  | MULTI_MODE_SIX_EG
  | MULTI_MODE_OUROBOROS
  | MULTI_MODE_OUROBOROS_ALTERNATE
  | MULTI_MODE_INVALID
  deriving DecidableEq

/-- Modelled from the spec: the enumeration `LedColor` of the LED driver, with
the four colours that `ui.cc` names (the closed palette of the spec). -/
inductive LedColor
  | LED_COLOR_OFF
  | LED_COLOR_GREEN
  | LED_COLOR_YELLOW
  | LED_COLOR_RED
  deriving DecidableEq

/-- Modelled from the spec: the enumeration `UiMode` of `ui.h`, with the two
values of `mode_` that `ui.cc` uses (normal operation and factory test). -/
inductive UiMode
  | UI_MODE_NORMAL
  | UI_MODE_FACTORY_TEST
  deriving DecidableEq

/-- Modelled from the spec: the result type of `chain_state_->loop_status(i)`
(none/start/end/self), in the order in which `fade_patterns` is commented in the
source. -/
inductive LoopStatus
  | LOOP_STATUS_NONE
  | LOOP_STATUS_START
  | LOOP_STATUS_END
  | LOOP_STATUS_SELF
  deriving DecidableEq

open MultiMode LedColor UiMode LoopStatus

/-- Index of a loop status into `fade_patterns`. -/
def LoopStatus.toNat : LoopStatus → Nat
  | LOOP_STATUS_NONE => 0
  | LOOP_STATUS_START => 1
  | LOOP_STATUS_END => 2
  | LOOP_STATUS_SELF => 3

/-- The table `Ui::multimodes_` (ui.cc:44-51). It has six entries; an index above
5 reads past the array in the source and is given the value `MULTI_MODE_INVALID`
here. -/
def multimodes_ : Nat → MultiMode
  | 0 => MULTI_MODE_STAGES
  | 1 => MULTI_MODE_STAGES
  | 2 => MULTI_MODE_STAGES_SLOW_LFO
  | 3 => MULTI_MODE_SIX_EG
  | 4 => MULTI_MODE_OUROBOROS
  | 5 => MULTI_MODE_OUROBOROS_ALTERNATE
  | _ => MULTI_MODE_INVALID

/-- The table `Ui::palette_` (ui.cc:54-59); only indices 0..3 are ever read. -/
def palette_ : Nat → LedColor
  | 0 => LED_COLOR_GREEN
  | 1 => LED_COLOR_YELLOW
  | 2 => LED_COLOR_RED
  | _ => LED_COLOR_OFF

/-! ## State -/

/-- Modelled from the spec: the persisted settings read and written through
`settings_` (the struct `State` of the settings store), reduced to the three
fields that `ui.cc` uses. -/
structure State where
  multimode : MultiMode
  segment_configuration : Nat → Nat
  color_blind : Nat

/-- Modelled from the spec: the LED frame held by `leds_`, with its two
fixed-size groups, the indicator LEDs (`LED_GROUP_UI + i`) and the slider LEDs
(`LED_GROUP_SLIDER + i`). -/
structure Leds where
  ui : Nat → LedColor
  slider : Nat → LedColor

/-- Modelled from the spec: what one render pass reads from the chain-state
collaborator (`discovering_neighbors()`, `size()`, `index()`, `loop_status(i)`). -/
structure Chain where
  discovering_neighbors : Bool
  size : Nat
  index : Nat
  loop_status : Nat → LoopStatus

/-- The members of `Ui` touched by `ui.cc`, the clock, the settings, and one
counter per call the code makes on a collaborator. -/
structure Ui where
  /-- Value of `system_clock.milliseconds()` (32 bits). -/
  milliseconds : Nat
  press_time_ : Nat → Int
  press_time_multimode_toggle_ : Nat → Int
  slider_led_counter_ : Nat → Nat
  led_color_ : Nat → LedColor
  mode_ : UiMode
  displaying_multimode_toggle_ : Int
  displaying_multimode_toggle_pressed_ : Nat
  /-- Contents of `*settings_`. -/
  state : State
  leds_ : Leds
  /-- Last bitmask passed to `chain_state_->set_local_switch_pressed`. -/
  local_switch_pressed : Nat
  /-- Number of calls of `settings_->SaveState()`. -/
  save_state_calls : Nat
  /-- Number of calls of `chain_state_->SuspendSwitches()`. -/
  suspend_switches_calls : Nat
  /-- Number of calls of `MultiModeToggle(i)`, per argument `i`. -/
  multimode_toggle_calls : Nat → Nat

/-- What one `Poll` tick reads from outside: the debounced switch states
(`switches_.pressed(i)` after `Debounce`) and the chain state. -/
structure Inputs where
  pressed : Nat → Bool
  chain : Chain

/-! ## Helpers of the embedding -/

/-- Iteration `for (i = 0; i < n; ++i) body i`. -/
def forLoop {σ : Type} (body : Nat → σ → σ) : Nat → σ → σ
  | 0, s => s
  | n + 1, s => body n (forLoop body n s)

/-- The increment `++x` of an `int32_t`, wrapping at 32 bits as on the target. -/
def incr32 (x : Int) : Int :=
  if x = 2147483647 then -2147483648 else x + 1

/-- Reduction of an unsigned expression to `size_t`, taken to be 32 bits wide as
on the 32-bit target of the firmware. -/
def toSizeT (x : Int) : Nat := (x % 4294967296).toNat

/-- Modelled from the spec: the call `leds_.Clear()` of the LED driver, which
turns every cell of the frame off. -/
def Leds.Clear : Leds :=
  { ui := fun _ => LED_COLOR_OFF, slider := fun _ => LED_COLOR_OFF }

/-- The call `leds_.set(LED_GROUP_UI + i, c)`. -/
def setUi (i : Nat) (c : LedColor) (u : Ui) : Ui :=
  { u with leds_ := { u.leds_ with ui := Function.update u.leds_.ui i c } }

/-- The call `leds_.set(LED_GROUP_SLIDER + i, c)`. -/
def setSlider (i : Nat) (c : LedColor) (u : Ui) : Ui :=
  { u with leds_ := { u.leds_ with slider := Function.update u.leds_.slider i c } }

/-- The call `settings_->SaveState()`, recorded in its call counter. -/
def SaveState (u : Ui) : Ui :=
  { u with save_state_calls := u.save_state_calls + 1 }

/-- Modelled from the spec: the call `system_clock.Tick()` of the clock, which
advances the millisecond counter by one unit, on 32 bits. -/
def Tick (u : Ui) : Ui :=
  { u with milliseconds := (u.milliseconds + 1) % 4294967296 }

/-- The test `multimode == MULTI_MODE_OUROBOROS || multimode == MULTI_MODE_OUROBOROS_ALTERNATE`. -/
def isOuroboros (m : MultiMode) : Bool :=
  m = MULTI_MODE_OUROBOROS || m = MULTI_MODE_OUROBOROS_ALTERNATE

/-! ## `Ui::Init` (ui.cc:61-87) -/

/-- The call `std::fill(&a[0], &a[n], v)` on an array indexed by channel. -/
def fill {α : Type} (a : Nat → α) (n : Nat) (v : α) : Nat → α :=
  fun j => if j < n then v else a j

/-- The function `Ui::Init`: `settings` is the persisted state handed in, `pressed_immediate0`
the value of `switches_.pressed_immediate(0)`; `system_clock.Init()` zeroes the
clock. -/
def Init (P : Params) (settings : State) (pressed_immediate0 : Bool) (u : Ui) : Ui :=
  let u := { u with milliseconds := 0 }
  let u := { u with press_time_ := fill u.press_time_ P.kNumSwitches 0 }
  let u := { u with
    press_time_multimode_toggle_ := fill u.press_time_multimode_toggle_ P.kNumSwitches 0 }
  let u := { u with state := settings, mode_ := UI_MODE_NORMAL }
  let u := { u with
    displaying_multimode_toggle_ := 0
    displaying_multimode_toggle_pressed_ := 0 }
  let u :=
    if pressed_immediate0 then
      let u :=
        if u.state.color_blind = 1 then
          { u with state := { u.state with color_blind := 0 } }
        else
          { u with state := { u.state with color_blind := 1 } }
      SaveState u
    else u
  { u with slider_led_counter_ := fill u.slider_led_counter_ P.kNumLEDs 0 }

/-! ## `Ui::MultiModeToggle` (ui.cc:151-168) -/

/-- The function `Ui::MultiModeToggle(i)`; the first assignment records the call
in the call counter of `i`. -/
def MultiModeToggle (P : Params) (i : Nat) (u : Ui) : Ui :=
  let u := { u with
    multimode_toggle_calls :=
      Function.update u.multimode_toggle_calls i (u.multimode_toggle_calls i + 1) }
  let u :=
    if u.state.multimode ≠ multimodes_ i then
      let u := forLoop (fun j u => { u with press_time_ := Function.update u.press_time_ j (-1) })
        P.kNumSwitches u
      let u := { u with suspend_switches_calls := u.suspend_switches_calls + 1 }
      let u := { u with state := { u.state with multimode := multimodes_ i } }
      SaveState u
    else u
  { u with
    displaying_multimode_toggle_pressed_ := i
    displaying_multimode_toggle_ := 1000 }

/-! ## `Ui::FadePattern` (ui.cc:170-175) -/

/-- The function `Ui::FadePattern(shift, phase)` read at clock value `ms`. -/
def FadePattern (ms shift phase : Nat) : Nat :=
  let x := (ms >>> shift) % 256
  let x := (x + phase) % 256
  let x := x &&& 0x1f
  if x ≤ 0x10 then x else 0x1f - x

/-! ## `Ui::UpdateLEDs` (ui.cc:177-300) -/

/-- Factory-test branch (ui.cc:184-197). -/
def renderFactoryTest (P : Params) (u : Ui) : Ui :=
  let counter := (u.milliseconds >>> 8) % 3
  forLoop (fun i u =>
    if u.slider_led_counter_ i = 0 then
      setSlider i (if counter = 0 then LED_COLOR_GREEN else LED_COLOR_OFF)
        (setUi i (palette_ counter) u)
    else if u.slider_led_counter_ i = 1 then
      setSlider i LED_COLOR_OFF (setUi i LED_COLOR_GREEN u)
    else
      setSlider i LED_COLOR_GREEN (setUi i LED_COLOR_GREEN u)) P.kNumChannels u

/-- Chain-discovery branch (ui.cc:201-213), in `size_t` arithmetic. -/
def renderDiscovery (P : Params) (chain : Chain) (u : Ui) : Ui :=
  let counter := u.milliseconds >>> 5
  let n := toSizeT (chain.size * P.kNumChannels)
  let counter := counter % toSizeT (2 * n - 2)
  let counter := if counter ≥ n then toSizeT (2 * n - 2 - counter) else counter
  let offset := toSizeT (chain.index * P.kNumChannels)
  if counter ≥ offset then
    let counter := counter - offset
    if counter < P.kNumChannels then
      setSlider counter LED_COLOR_GREEN (setUi counter LED_COLOR_YELLOW u)
    else u
  else u

/-- Mode-toggle overlay branch (ui.cc:219-223). -/
def renderOverlay (P : Params) (u : Ui) : Ui :=
  let u := { u with displaying_multimode_toggle_ := u.displaying_multimode_toggle_ - 1 }
  forLoop (fun i u =>
    setUi i (if u.displaying_multimode_toggle_pressed_ = i then LED_COLOR_YELLOW
      else LED_COLOR_OFF) u) P.kNumChannels u

/-- The array `fade_patterns` (ui.cc:232-237) at clock value `ms`. -/
def fade_patterns (ms : Nat) : Nat → Nat
  | 0 => 0xf
  | 1 => FadePattern ms 4 0
  | 2 => FadePattern ms 4 0x0f
  | _ => FadePattern ms 4 0x08

/-- Body of the per-channel loop of the stage-family branch (ui.cc:239-268). -/
def renderStageChannel (chain : Chain) (multimode : MultiMode) (i : Nat) (u : Ui) : Ui :=
  let pwm := u.milliseconds &&& 0xf
  let configuration := u.state.segment_configuration i % 256
  let configuration :=
    if isOuroboros multimode then configuration >>> 4 else configuration
  let type := configuration &&& 0x3
  let brightness := fade_patterns u.milliseconds
    (if isOuroboros multimode then (if configuration &&& 0x4 ≠ 0 then 3 else 0)
     else (chain.loop_status i).toNat)
  let color := palette_ type
  let cb : LedColor × Nat :=
    if u.state.color_blind = 1 then
      if type = 0 then
        let modulation :=
          FadePattern u.milliseconds 6 (toSizeT (13 - 2 * (i : Int)) % 256) >>> 1
        (LED_COLOR_GREEN, (brightness * (7 + modulation)) >>> 4)
      else if type = 1 then
        (LED_COLOR_YELLOW, if brightness ≥ 0x8 then 0xf else 0)
      else if type = 2 then
        (LED_COLOR_RED, if brightness ≥ 0xc then 0x1 else 0)
      else (color, brightness)
    else (color, brightness)
  let u := setUi i (if cb.2 ≥ pwm ∧ cb.2 ≠ 0 then cb.1 else LED_COLOR_OFF) u
  setSlider i (if u.slider_led_counter_ i ≠ 0 then LED_COLOR_GREEN else LED_COLOR_OFF) u

/-- Stage-family branch (ui.cc:230-269). -/
def renderStageFamily (P : Params) (chain : Chain) (multimode : MultiMode) (u : Ui) : Ui :=
  forLoop (renderStageChannel chain multimode) P.kNumChannels u

/-- Six-stage envelope generator branch (ui.cc:273-277). -/
def renderSixEG (P : Params) (u : Ui) : Ui :=
  forLoop (fun i u =>
    setSlider i (if u.slider_led_counter_ i ≠ 0 then LED_COLOR_GREEN else LED_COLOR_OFF)
      (setUi i (u.led_color_ i) u)) P.kNumChannels u

/-- Invalid-mode branch (ui.cc:281-285). -/
def renderFallback (P : Params) (u : Ui) : Ui :=
  forLoop (fun i u => setSlider i LED_COLOR_OFF (setUi i LED_COLOR_OFF u)) P.kNumChannels u

/-- The mode-dependent branches taken when the overlay is not active
(ui.cc:225-287). -/
def renderMode (P : Params) (chain : Chain) (multimode : MultiMode) (u : Ui) : Ui :=
  if multimode = MULTI_MODE_STAGES ∨ multimode = MULTI_MODE_STAGES_SLOW_LFO ∨
      multimode = MULTI_MODE_OUROBOROS ∨ multimode = MULTI_MODE_OUROBOROS_ALTERNATE then
    renderStageFamily P chain multimode u
  else if multimode = MULTI_MODE_SIX_EG then
    renderSixEG P u
  else
    renderFallback P u

/-- Decay of the slider LED counters (ui.cc:290-294). -/
def updateSliderCounters (P : Params) (u : Ui) : Ui :=
  forLoop (fun i u =>
    if u.slider_led_counter_ i ≠ 0 then
      { u with
        slider_led_counter_ := Function.update u.slider_led_counter_ i (u.slider_led_counter_ i - 1) }
    else u) P.kNumChannels u

/-- The function `Ui::UpdateLEDs`. The final `leds_.Write()` hands `leds_` to the driver. -/
def UpdateLEDs (P : Params) (chain : Chain) (u : Ui) : Ui :=
  let u := { u with leds_ := Leds.Clear }
  let multimode := u.state.multimode
  if u.mode_ = UI_MODE_FACTORY_TEST then
    renderFactoryTest P u
  else if chain.discovering_neighbors then
    renderDiscovery P chain u
  else
    let u :=
      if u.displaying_multimode_toggle_ > 0 then renderOverlay P u
      else renderMode P chain multimode u
    updateSliderCounters P u

/-! ## `Ui::Poll` (ui.cc:89-149) -/

/-- Body of the Bank A loop for switch `i` (ui.cc:101-118). -/
def bankAStep (P : Params) (pressed : Nat → Bool) (i : Nat) (u : Ui) : Ui :=
  if pressed i then
    if u.press_time_ i ≠ -1 then
      { u with press_time_ := Function.update u.press_time_ i (incr32 (u.press_time_ i)) }
    else u
  else
    let u :=
      if u.press_time_ i > kLongPressDuration then
        if u.press_time_ i < P.kLongPressDurationForMultiModeToggle then
          let c := (u.state.segment_configuration i ^^^ 0b01000000) % 256
          SaveState { u with state := { u.state with
            segment_configuration := Function.update u.state.segment_configuration i c } }
        else u
      else if u.press_time_ i > 0 then
        let type_bits := (u.state.segment_configuration i &&& 0b00110000) >>> 4
        let c := u.state.segment_configuration i &&& 0b11001111
        let c := (c ||| (((type_bits + 1) % 3) <<< 4)) % 256
        SaveState { u with state := { u.state with
          segment_configuration := Function.update u.state.segment_configuration i c } }
      else u
    { u with press_time_ := Function.update u.press_time_ i 0 }

/-- Body of the Bank B loop for switch `i` (ui.cc:136-146). -/
def bankBStep (P : Params) (pressed : Nat → Bool) (i : Nat) (u : Ui) : Ui :=
  if pressed i then
    let u :=
      if u.press_time_multimode_toggle_ i ≠ -1 then
        let c := incr32 (u.press_time_multimode_toggle_ i)
        { u with
          press_time_multimode_toggle_ := Function.update u.press_time_multimode_toggle_ i c }
      else u
    if u.press_time_multimode_toggle_ i > P.kLongPressDurationForMultiModeToggle then
      let u := MultiModeToggle P i u
      { u with
        press_time_multimode_toggle_ := Function.update u.press_time_multimode_toggle_ i (-1) }
    else u
  else
    { u with
      press_time_multimode_toggle_ := Function.update u.press_time_multimode_toggle_ i 0 }

/-- The bitmask of pressed switches (ui.cc:124-131). -/
def pressedMask (P : Params) (pressed : Nat → Bool) : Nat :=
  forLoop (fun i m => if pressed i then m ||| (1 <<< i) else m) P.kNumSwitches 0

/-- The function `Ui::Poll`: one tick, with the debounced switch states and the
chain state as inputs. -/
def Poll (P : Params) (inp : Inputs) (u : Ui) : Ui :=
  let u := Tick u
  let u := UpdateLEDs P inp.chain u
  let multimode := u.state.multimode
  let u :=
    if isOuroboros multimode then forLoop (bankAStep P inp.pressed) P.kNumSwitches u
    else u
  let u := { u with local_switch_pressed := pressedMask P inp.pressed }
  forLoop (bankBStep P inp.pressed) P.kNumSwitches u

/-- A run of `Poll` ticks, one per element of the input list, first element first. -/
def run (P : Params) : List Inputs → Ui → Ui
  | [], u => u
  | inp :: rest, u => run P rest (Poll P inp u)

/-! ## Button gestures -/

/-- Switch `i` is the only switch reported pressed on this tick. -/
def OnlyPressed (i : Nat) (inp : Inputs) : Prop :=
  ∀ j, inp.pressed j = decide (j = i)

/-- No switch is reported pressed on this tick. -/
def NonePressed (inp : Inputs) : Prop :=
  ∀ j, inp.pressed j = false

/-- No press is pending on a switch other than `i`: their Bank A counters are
idle (0) or frozen (-1). -/
def OthersIdle (P : Params) (i : Nat) (u : Ui) : Prop :=
  ∀ j, j ≠ i → j < P.kNumSwitches → u.press_time_ j ≤ 0

/-- The 2-bit field in bits 4-5 of a configuration byte. -/
def ouroborosType (c : Nat) : Nat := (c >>> 4) &&& 0x3

/-- The input sequence `l` is: switch `i` alone pressed for `k` ticks, then one
tick with no switch pressed. -/
def IsPress (i k : Nat) (l : List Inputs) : Prop :=
  ∃ hold rel, l = hold ++ [rel] ∧ hold.length = k ∧
    (∀ inp ∈ hold, OnlyPressed i inp) ∧ NonePressed rel

/-! ## Concrete data for evaluation -/

/-- Constants of a six-switch device with a very-long-press threshold of 5000. -/
def demoParams : Params :=
  { kNumSwitches := 6, kNumChannels := 6, kNumLEDs := 6,
    kLongPressDurationForMultiModeToggle := 5000 }

/-- A chain of one device that is not discovering its neighbours. -/
def demoChain : Chain :=
  { discovering_neighbors := false, size := 1, index := 0,
    loop_status := fun _ => LOOP_STATUS_NONE }

/-- A controller at rest in mode `m`, every configuration byte equal to `c`. -/
def demoUi (m : MultiMode) (c : Nat) : Ui :=
  { milliseconds := 0
    press_time_ := fun _ => 0
    press_time_multimode_toggle_ := fun _ => 0
    slider_led_counter_ := fun _ => 0
    led_color_ := fun _ => LED_COLOR_OFF
    mode_ := UI_MODE_NORMAL
    displaying_multimode_toggle_ := 0
    displaying_multimode_toggle_pressed_ := 0
    state := { multimode := m, segment_configuration := fun _ => c, color_blind := 0 }
    leds_ := Leds.Clear
    local_switch_pressed := 0
    save_state_calls := 0
    suspend_switches_calls := 0
    multimode_toggle_calls := fun _ => 0 }

/-- The tick input "only switch `i` pressed". -/
def pressOnly (i : Nat) : Inputs :=
  { pressed := fun j => decide (j = i), chain := demoChain }

/-- The tick input "no switch pressed". -/
def pressNone : Inputs :=
  { pressed := fun _ => false, chain := demoChain }

/-- The controller at rest in Stages mode with the overlay just started by
switch 2. -/
def demoOverlay : Ui :=
  { demoUi MULTI_MODE_STAGES 0 with
    displaying_multimode_toggle_ := 1000
    displaying_multimode_toggle_pressed_ := 2 }

/-- Constants of a device with four channels, as in the chain-discovery scenario
of the spec. -/
def scenarioParams : Params :=
  { kNumSwitches := 4, kNumChannels := 4, kNumLEDs := 4,
    kLongPressDurationForMultiModeToggle := 5000 }

/-- The chain of the discovery scenario: two devices, this one at index 1,
discovery in progress. -/
def scenarioChain : Chain :=
  { discovering_neighbors := true, size := 2, index := 1,
    loop_status := fun _ => LOOP_STATUS_NONE }

/-- A controller whose clock reads 160 ms, so that the discovery counter
`(160 >> 5) mod 14` is 5. -/
def scenarioUi : Ui :=
  { demoUi MULTI_MODE_STAGES 0 with milliseconds := 160 }

/-- A controller in mode `m` and UI mode `md` whose slider decay counters all
read 5. -/
def demoSlider (m : MultiMode) (md : UiMode) : Ui :=
  { demoUi m 0 with mode_ := md, slider_led_counter_ := fun _ => 5 }

/-- A chain of one device that is discovering its neighbours. -/
def demoDiscovery : Chain :=
  { demoChain with discovering_neighbors := true }

/-- The chain state seen by device `d` of a chain of `s` devices during
discovery. -/
def discoveryChain (s d : Nat) : Chain :=
  { discovering_neighbors := true, size := s, index := d,
    loop_status := fun _ => LOOP_STATUS_NONE }

/-- A controller at rest in mode `m` with colour-blind mode on, every
configuration byte equal to `c`. -/
def demoBlind (m : MultiMode) (c : Nat) : Ui :=
  { demoUi m c with state := { (demoUi m c).state with color_blind := 1 } }

/-- Switch `i` alone pressed for `k` ticks, then released for one tick. -/
def pressFor (i k : Nat) : List Inputs :=
  List.replicate k (pressOnly i) ++ [pressNone]

/-! ## Per-channel effect of the two timer loops -/

/-- Value of `press_time_[i]` after the Bank A body, from its value before. -/
def bankATime (pressed : Bool) (t : Int) : Int :=
  if pressed then (if t ≠ -1 then incr32 t else t) else 0

/-- Value of `segment_configuration[i]` after the Bank A body. -/
def bankAConfig (P : Params) (pressed : Bool) (t : Int) (c : Nat) : Nat :=
  if pressed then c
  else if t > kLongPressDuration then
    if t < P.kLongPressDurationForMultiModeToggle then (c ^^^ 0b01000000) % 256 else c
  else if t > 0 then
    ((c &&& 0b11001111) ||| (((((c &&& 0b00110000) >>> 4) + 1) % 3) <<< 4)) % 256
  else c

/-- Number of `SaveState` calls made by the Bank A body. -/
def bankASaves (P : Params) (pressed : Bool) (t : Int) : Nat :=
  if pressed then 0
  else if t > kLongPressDuration then
    if t < P.kLongPressDurationForMultiModeToggle then 1 else 0
  else if t > 0 then 1
  else 0

/-- Value of `press_time_multimode_toggle_[i]` after the conditional increment
of the Bank B body (ui.cc:137-139). -/
def bankBCount (t : Int) : Int :=
  if t ≠ -1 then incr32 t else t

/-- The Bank B body calls `MultiModeToggle(i)`. -/
def bankBFires (P : Params) (pressed : Bool) (t : Int) : Prop :=
  pressed = true ∧ bankBCount t > P.kLongPressDurationForMultiModeToggle

instance (P : Params) (pressed : Bool) (t : Int) : Decidable (bankBFires P pressed t) := by
  unfold bankBFires; infer_instance

/-- Value of `press_time_multimode_toggle_[i]` after the Bank B body. -/
def bankBTime (P : Params) (pressed : Bool) (t : Int) : Int :=
  if pressed then
    (if bankBCount t > P.kLongPressDurationForMultiModeToggle then -1 else bankBCount t)
  else 0

/-- The part of the state that a render pass neither writes nor hands to the
LED driver: everything but `leds_`, the overlay countdown and the slider decay
counters. -/
def core (u : Ui) :=
  (u.press_time_, u.press_time_multimode_toggle_, u.state, u.milliseconds, u.mode_,
    u.led_color_, u.local_switch_pressed, u.save_state_calls, u.suspend_switches_calls,
    u.multimode_toggle_calls, u.displaying_multimode_toggle_pressed_)

/-! ## Loop lemmas -/

theorem forLoop_succ {σ : Type} (body : Nat → σ → σ) (n : Nat) (s : σ) :
    forLoop body (n + 1) s = body n (forLoop body n s) := rfl

theorem bankAStep_eq (P : Params) (pressed : Nat → Bool) (i : Nat) (u : Ui) :
    bankAStep P pressed i u =
      { u with
        press_time_ := Function.update u.press_time_ i (bankATime (pressed i) (u.press_time_ i))
        state := { u.state with
          segment_configuration := Function.update u.state.segment_configuration i
            (bankAConfig P (pressed i) (u.press_time_ i) (u.state.segment_configuration i)) }
        save_state_calls := u.save_state_calls + bankASaves P (pressed i) (u.press_time_ i) } := by
  unfold bankAStep bankATime bankAConfig bankASaves SaveState
  cases hp : pressed i <;> simp
  · split_ifs <;> simp
  · split_ifs <;> simp

theorem bankA_loop (P : Params) (pressed : Nat → Bool) (n : Nat) (u : Ui) :
    forLoop (bankAStep P pressed) n u =
      { u with
        press_time_ := fun j =>
          if j < n then bankATime (pressed j) (u.press_time_ j) else u.press_time_ j
        state := { u.state with
          segment_configuration := fun j =>
            if j < n then
              bankAConfig P (pressed j) (u.press_time_ j) (u.state.segment_configuration j)
            else u.state.segment_configuration j }
        save_state_calls := u.save_state_calls +
          ∑ j in Finset.range n, bankASaves P (pressed j) (u.press_time_ j) } := by
  induction n with
  | zero => simp [forLoop]
  | succ n ih =>
    rw [forLoop_succ, ih, bankAStep_eq]
    simp only [Finset.sum_range_succ, lt_irrefl, if_false, Nat.add_assoc]
    congr 1
    · funext j
      by_cases h : j = n
      · subst h; simp
      · have : (j < n + 1) = (j < n) := by
          apply propext; omega
        simp [Function.update_noteq h, this]
    · congr 1
      funext j
      by_cases h : j = n
      · subst h; simp
      · have : (j < n + 1) = (j < n) := by
          apply propext; omega
        simp [Function.update_noteq h, this]

theorem fill_apply {α : Type} (a : Nat → α) (n : Nat) (v : α) (j : Nat) :
    fill a n v j = if j < n then v else a j := rfl

theorem fill_zero {α : Type} (a : Nat → α) (v : α) : fill a 0 v = a := by
  funext j; simp [fill_apply]

theorem freeze_loop (n : Nat) (u : Ui) :
    forLoop (fun j u => { u with press_time_ := Function.update u.press_time_ j (-1) }) n u =
      { u with press_time_ := fill u.press_time_ n (-1) } := by
  induction n with
  | zero => simp [forLoop, fill_zero]
  | succ n ih =>
    rw [forLoop_succ, ih]
    congr 1
    funext j
    by_cases h : j = n
    · subst h; simp [fill_apply]
    · have : (j < n + 1) = (j < n) := by
        apply propext; omega
      simp [Function.update_noteq h, this, fill_apply]

theorem MultiModeToggle_eq (P : Params) (i : Nat) (u : Ui) :
    MultiModeToggle P i u =
      { u with
        multimode_toggle_calls :=
          Function.update u.multimode_toggle_calls i (u.multimode_toggle_calls i + 1)
        press_time_ :=
          if u.state.multimode ≠ multimodes_ i then fill u.press_time_ P.kNumSwitches (-1)
          else u.press_time_
        suspend_switches_calls :=
          u.suspend_switches_calls + (if u.state.multimode ≠ multimodes_ i then 1 else 0)
        save_state_calls :=
          u.save_state_calls + (if u.state.multimode ≠ multimodes_ i then 1 else 0)
        state := { u.state with multimode := multimodes_ i }
        displaying_multimode_toggle_pressed_ := i
        displaying_multimode_toggle_ := 1000 } := by
  unfold MultiModeToggle
  by_cases h : u.state.multimode = multimodes_ i
  · simp [h]
    rw [← h]
  · simp [h, freeze_loop, SaveState]

theorem bankBStep_eq (P : Params) (pressed : Nat → Bool) (i : Nat) (u : Ui) :
    bankBStep P pressed i u =
      { (if bankBFires P (pressed i) (u.press_time_multimode_toggle_ i)
          then MultiModeToggle P i u else u) with
        press_time_multimode_toggle_ :=
          Function.update u.press_time_multimode_toggle_ i
            (bankBTime P (pressed i) (u.press_time_multimode_toggle_ i)) } := by
  unfold bankBStep bankBFires bankBTime bankBCount
  cases hp : pressed i
  · simp
  · by_cases h1 : u.press_time_multimode_toggle_ i = -1
    · have h2 : Function.update u.press_time_multimode_toggle_ i (-1) =
          u.press_time_multimode_toggle_ := by
        rw [← h1]; exact Function.update_eq_self _ _
      simp [h1]
      split_ifs <;> simp [MultiModeToggle_eq, h2]
    · simp [h1]
      split_ifs <;> simp [MultiModeToggle_eq]

theorem lt_succ_of_ne {j n : Nat} (h : j ≠ n) : (j < n + 1) = (j < n) := by
  apply propext; omega

theorem bankB_loop_time (P : Params) (pressed : Nat → Bool) (n : Nat) (u : Ui) :
    (forLoop (bankBStep P pressed) n u).press_time_multimode_toggle_ = fun j =>
      if j < n then bankBTime P (pressed j) (u.press_time_multimode_toggle_ j)
      else u.press_time_multimode_toggle_ j := by
  induction n with
  | zero => simp [forLoop]
  | succ n ih =>
    rw [forLoop_succ, bankBStep_eq]
    simp only [ih]
    funext j
    by_cases h : j = n
    · subst h; simp
    · simp [Function.update_noteq h, lt_succ_of_ne h]

theorem bankB_loop_nofire (P : Params) (pressed : Nat → Bool) (n : Nat) (u : Ui)
    (h : ∀ j, j < n → ¬ bankBFires P (pressed j) (u.press_time_multimode_toggle_ j)) :
    forLoop (bankBStep P pressed) n u =
      { u with
        press_time_multimode_toggle_ := fun j =>
          if j < n then bankBTime P (pressed j) (u.press_time_multimode_toggle_ j)
          else u.press_time_multimode_toggle_ j } := by
  induction n with
  | zero => simp [forLoop]
  | succ n ih =>
    rw [forLoop_succ, ih (fun j hj => h j (Nat.lt_succ_of_lt hj)), bankBStep_eq]
    have hn := h n (Nat.lt_succ_self n)
    simp only [lt_irrefl, if_false, hn]
    congr 1
    funext j
    by_cases h : j = n
    · subst h; simp
    · simp [Function.update_noteq h, lt_succ_of_ne h]

theorem bankB_loop_frame (P : Params) (pressed : Nat → Bool) (n : Nat) (u : Ui) :
    let v := forLoop (bankBStep P pressed) n u
    v.state.segment_configuration = u.state.segment_configuration ∧
    v.state.color_blind = u.state.color_blind ∧
    v.milliseconds = u.milliseconds ∧
    v.slider_led_counter_ = u.slider_led_counter_ ∧
    v.led_color_ = u.led_color_ ∧
    v.mode_ = u.mode_ ∧
    v.leds_ = u.leds_ ∧
    v.local_switch_pressed = u.local_switch_pressed := by
  induction n with
  | zero => simp [forLoop]
  | succ n ih =>
    simp only [forLoop_succ, bankBStep_eq]
    simp only at ih
    split_ifs <;> simp [MultiModeToggle_eq, ih]

theorem bankB_loop_calls (P : Params) (pressed : Nat → Bool) (n : Nat) (u : Ui) :
    (forLoop (bankBStep P pressed) n u).multimode_toggle_calls = fun j =>
      u.multimode_toggle_calls j +
        (if j < n ∧ bankBFires P (pressed j) (u.press_time_multimode_toggle_ j) then 1 else 0) := by
  induction n with
  | zero => simp [forLoop]
  | succ n ih =>
    rw [forLoop_succ, bankBStep_eq]
    have ht := bankB_loop_time P pressed n u
    funext j
    by_cases h : j = n
    · subst h
      split_ifs with h1 h2 h2
      all_goals simp [MultiModeToggle_eq, ih, ht] at *
      all_goals first | omega | tauto
    · split_ifs with h1 h2 h2
      all_goals simp [MultiModeToggle_eq, ih, ht, Function.update_noteq h, lt_succ_of_ne h] at *
      all_goals first | omega | tauto

theorem forLoop_preserve {σ α : Type} (f : σ → α) (body : Nat → σ → σ)
    (h : ∀ i s, f (body i s) = f s) (n : Nat) (s : σ) : f (forLoop body n s) = f s := by
  induction n with
  | zero => rfl
  | succ n ih => rw [forLoop_succ, h, ih]

theorem renderMode_core (P : Params) (chain : Chain) (m : MultiMode) (u : Ui) :
    core (renderMode P chain m u) = core u := by
  unfold renderMode renderStageFamily renderSixEG renderFallback
  split_ifs
  · apply forLoop_preserve
    intro i s
    simp [renderStageChannel, setUi, setSlider, core]
  · apply forLoop_preserve
    intro i s
    simp [setUi, setSlider, core]
  · apply forLoop_preserve
    intro i s
    simp [setUi, setSlider, core]

theorem renderOverlay_core (P : Params) (u : Ui) :
    core (renderOverlay P u) = core u := by
  unfold renderOverlay
  rw [forLoop_preserve core]
  · rfl
  · intro i s
    simp [setUi, core]

theorem UpdateLEDs_core (P : Params) (chain : Chain) (u : Ui) :
    core (UpdateLEDs P chain u) = core u := by
  unfold UpdateLEDs
  simp only
  split_ifs
  · unfold renderFactoryTest
    rw [forLoop_preserve core]
    · rfl
    · intro i s
      split_ifs <;> simp [setUi, setSlider, core]
  · unfold renderDiscovery
    simp only
    split_ifs <;> simp [setUi, setSlider, core]
  · unfold updateSliderCounters
    rw [forLoop_preserve core, renderOverlay_core]
    · rfl
    · intro i s
      split_ifs <;> simp [core]
  · unfold updateSliderCounters
    rw [forLoop_preserve core, renderMode_core]
    · rfl
    · intro i s
      split_ifs <;> simp [core]

/-- The fields of `core` after the render pass of a tick are those before the tick,
the clock apart. -/
theorem render_fields (P : Params) (chain : Chain) (u : Ui) :
    let v := UpdateLEDs P chain (Tick u)
    v.press_time_ = u.press_time_ ∧
    v.press_time_multimode_toggle_ = u.press_time_multimode_toggle_ ∧
    v.state = u.state ∧
    v.save_state_calls = u.save_state_calls ∧
    v.suspend_switches_calls = u.suspend_switches_calls ∧
    v.multimode_toggle_calls = u.multimode_toggle_calls ∧
    v.mode_ = u.mode_ := by
  have h := UpdateLEDs_core P chain (Tick u)
  simp only [core, Prod.mk.injEq, Tick] at h
  simp only
  tauto

theorem Poll_ouroboros_nofire (P : Params) (inp : Inputs) (u : Ui)
    (hm : isOuroboros u.state.multimode = true)
    (hf : ∀ j, j < P.kNumSwitches →
      ¬ bankBFires P (inp.pressed j) (u.press_time_multimode_toggle_ j)) :
    let w := Poll P inp u
    (w.press_time_ = fun j =>
      if j < P.kNumSwitches then bankATime (inp.pressed j) (u.press_time_ j)
      else u.press_time_ j) ∧
    (w.press_time_multimode_toggle_ = fun j =>
      if j < P.kNumSwitches then bankBTime P (inp.pressed j) (u.press_time_multimode_toggle_ j)
      else u.press_time_multimode_toggle_ j) ∧
    w.state.multimode = u.state.multimode ∧
    (w.state.segment_configuration = fun j =>
      if j < P.kNumSwitches then
        bankAConfig P (inp.pressed j) (u.press_time_ j) (u.state.segment_configuration j)
      else u.state.segment_configuration j) ∧
    w.save_state_calls = u.save_state_calls +
      ∑ j in Finset.range P.kNumSwitches, bankASaves P (inp.pressed j) (u.press_time_ j) ∧
    w.suspend_switches_calls = u.suspend_switches_calls ∧
    w.multimode_toggle_calls = u.multimode_toggle_calls := by
  obtain ⟨h1, h2, h3, h4, h5, h6, _⟩ := render_fields P inp.chain u
  simp only [Poll]
  rw [h3, hm]
  simp only [if_true]
  rw [bankB_loop_nofire]
  · simp only [bankA_loop, h1, h2, h3, h4, h5, h6]
    simp
  · intro j hj
    simp only [bankA_loop, h2]
    exact hf j hj

theorem run_append (P : Params) (a b : List Inputs) (u : Ui) :
    run P (a ++ b) u = run P b (run P a u) := by
  induction a generalizing u with
  | nil => rfl
  | cons x a ih => simp [run, ih]

/-- One tick of a hold of switch `i` alone, in an Ouroboros mode, below both
thresholds of Bank B. -/
theorem Poll_hold (P : Params) (i : Nat) (hi : i < P.kNumSwitches) (inp : Inputs)
    (hp : OnlyPressed i inp) (u : Ui) (hm : isOuroboros u.state.multimode = true)
    (t : Nat) (hpt : u.press_time_ i = t) (hptm : u.press_time_multimode_toggle_ i = t)
    (hT : (t : Int) + 1 ≤ P.kLongPressDurationForMultiModeToggle)
    (h32 : t + 1 ≤ 2147483647) :
    let w := Poll P inp u
    w.state.multimode = u.state.multimode ∧
    w.press_time_ i = (t + 1 : Nat) ∧
    w.press_time_multimode_toggle_ i = (t + 1 : Nat) ∧
    w.state.segment_configuration i = u.state.segment_configuration i ∧
    w.multimode_toggle_calls = u.multimode_toggle_calls ∧
    w.suspend_switches_calls = u.suspend_switches_calls ∧
    (OthersIdle P i u →
      (∀ j, j ≠ i → w.state.segment_configuration j = u.state.segment_configuration j) ∧
      OthersIdle P i w ∧ w.save_state_calls = u.save_state_calls) := by
  have hcnt : bankBCount (t : Int) = t + 1 := by
    unfold bankBCount incr32
    split_ifs <;> omega
  have hf : ∀ j, j < P.kNumSwitches →
      ¬ bankBFires P (inp.pressed j) (u.press_time_multimode_toggle_ j) := by
    intro j _
    by_cases hj : j = i
    · subst hj
      simp only [bankBFires, hptm, hcnt]
      omega
    · simp [bankBFires, hp j, hj]
  obtain ⟨h1, h2, h3, h4, h5, h6, h7⟩ := Poll_ouroboros_nofire P inp u hm hf
  have hA : bankATime true (t : Int) = t + 1 := by
    simp only [bankATime, incr32, if_true]
    split_ifs <;> omega
  have hB : bankBTime P true (t : Int) = t + 1 := by
    simp only [bankBTime, hcnt, if_true]
    split_ifs <;> omega
  refine ⟨h3, ?_, ?_, ?_, h7, h6, ?_⟩
  · simp [h1, hi, hp i, hpt, hA]
  · simp [h2, hi, hp i, hptm, hB]
  · simp [h4, hi, hp i, bankAConfig]
  · intro hq
    refine ⟨?_, ?_, ?_⟩
    · intro j hj
      rw [h4]
      by_cases hjn : j < P.kNumSwitches
      · have := hq j hj hjn
        simp only [hjn, if_true, hp j, hj, decide_False, bankAConfig, kLongPressDuration]
        split_ifs <;> first | rfl | omega
      · simp [hjn]
    · intro j hj hjn
      rw [h1]
      simp [hjn, hp j, hj, bankATime]
    · rw [h5]
      have : ∀ j ∈ Finset.range P.kNumSwitches,
          bankASaves P (inp.pressed j) (u.press_time_ j) = 0 := by
        intro j hjn
        rw [Finset.mem_range] at hjn
        by_cases hj : j = i
        · subst hj; simp [hp j, bankASaves]
        · have := hq j hj hjn
          simp only [hp j, hj, decide_False, bankASaves, kLongPressDuration]
          split_ifs <;> first | rfl | omega
      rw [Finset.sum_eq_zero this]
      rfl

/-- A hold of switch `i` alone, in an Ouroboros mode, that ends below both
thresholds of Bank B: both counters of `i` count the ticks. -/
theorem run_hold (P : Params) (i : Nat) (hi : i < P.kNumSwitches) (hold : List Inputs)
    (hp : ∀ inp ∈ hold, OnlyPressed i inp) (u : Ui)
    (hm : isOuroboros u.state.multimode = true)
    (t : Nat) (hpt : u.press_time_ i = t) (hptm : u.press_time_multimode_toggle_ i = t)
    (hT : ((t + hold.length : Nat) : Int) ≤ P.kLongPressDurationForMultiModeToggle)
    (h32 : t + hold.length ≤ 2147483647) :
    let w := run P hold u
    w.state.multimode = u.state.multimode ∧
    w.press_time_ i = (t + hold.length : Nat) ∧
    w.press_time_multimode_toggle_ i = (t + hold.length : Nat) ∧
    w.state.segment_configuration i = u.state.segment_configuration i ∧
    w.multimode_toggle_calls = u.multimode_toggle_calls ∧
    w.suspend_switches_calls = u.suspend_switches_calls ∧
    (OthersIdle P i u →
      (∀ j, j ≠ i → w.state.segment_configuration j = u.state.segment_configuration j) ∧
      OthersIdle P i w ∧ w.save_state_calls = u.save_state_calls) := by
  induction hold generalizing u t with
  | nil => simp [run, hpt, hptm]
  | cons inp rest ih =>
    simp only [List.length_cons] at hT h32
    obtain ⟨a1, a2, a3, a4, a5, a6, a7⟩ :=
      Poll_hold P i hi inp (hp inp (List.mem_cons_self _ _)) u hm t hpt hptm
        (by push_cast at hT ⊢; omega) (by omega)
    obtain ⟨b1, b2, b3, b4, b5, b6, b7⟩ :=
      ih (fun x hx => hp x (List.mem_cons_of_mem _ hx)) (Poll P inp u) (by rw [a1]; exact hm)
        (t + 1) a2 a3 (by push_cast at hT ⊢; omega) (by omega)
    simp only [run, List.length_cons]
    refine ⟨by rw [b1, a1], ?_, ?_, by rw [b4, a4], by rw [b5, a5], by rw [b6, a6], ?_⟩
    · rw [b2]; push_cast; omega
    · rw [b3]; push_cast; omega
    · intro hq
      obtain ⟨c1, c2, c3⟩ := a7 hq
      obtain ⟨d1, d2, d3⟩ := b7 c2
      exact ⟨fun j hj => by rw [d1 j hj, c1 j hj], d2, by rw [d3, c3]⟩

/-- The tick on which switch `i` is found released, in an Ouroboros mode, no
switch being pressed. -/
theorem Poll_release (P : Params) (i : Nat) (hi : i < P.kNumSwitches) (inp : Inputs)
    (hp : NonePressed inp) (u : Ui) (hm : isOuroboros u.state.multimode = true) :
    let w := Poll P inp u
    w.state.multimode = u.state.multimode ∧
    w.press_time_ i = 0 ∧
    w.press_time_multimode_toggle_ i = 0 ∧
    w.state.segment_configuration i =
      bankAConfig P false (u.press_time_ i) (u.state.segment_configuration i) ∧
    w.multimode_toggle_calls = u.multimode_toggle_calls ∧
    w.suspend_switches_calls = u.suspend_switches_calls ∧
    (OthersIdle P i u →
      (∀ j, j ≠ i → w.state.segment_configuration j = u.state.segment_configuration j) ∧
      OthersIdle P i w ∧
      w.save_state_calls = u.save_state_calls + bankASaves P false (u.press_time_ i)) := by
  have hf : ∀ j, j < P.kNumSwitches →
      ¬ bankBFires P (inp.pressed j) (u.press_time_multimode_toggle_ j) := by
    intro j _
    simp [bankBFires, hp j]
  obtain ⟨h1, h2, h3, h4, h5, h6, h7⟩ := Poll_ouroboros_nofire P inp u hm hf
  refine ⟨h3, ?_, ?_, ?_, h7, h6, ?_⟩
  · simp [h1, hi, hp i, bankATime]
  · simp [h2, hi, hp i, bankBTime]
  · simp [h4, hi, hp i]
  · intro hq
    refine ⟨?_, ?_, ?_⟩
    · intro j hj
      rw [h4]
      by_cases hjn : j < P.kNumSwitches
      · have := hq j hj hjn
        simp only [hjn, if_true, hp j, bankAConfig, kLongPressDuration]
        split_ifs <;> first | rfl | omega
      · simp [hjn]
    · intro j hj hjn
      rw [h1]
      simp [hjn, hp j, bankATime]
    · rw [h5, Finset.sum_eq_single i]
      · rw [hp i]
      · intro j hjn hj
        rw [Finset.mem_range] at hjn
        have := hq j hj hjn
        simp only [hp j, bankASaves, kLongPressDuration]
        split_ifs <;> first | rfl | omega
      · intro h
        exact absurd (Finset.mem_range.mpr hi) h

/-- Effect of pressing switch `i` alone for `hold.length` ticks from rest and
releasing it, in an Ouroboros mode, when the hold ends before Bank B fires. -/
theorem run_press_release (P : Params) (i : Nat) (hi : i < P.kNumSwitches)
    (hold : List Inputs) (rel : Inputs)
    (hp : ∀ inp ∈ hold, OnlyPressed i inp) (hr : NonePressed rel) (u : Ui)
    (hm : isOuroboros u.state.multimode = true)
    (hpt : u.press_time_ i = 0) (hptm : u.press_time_multimode_toggle_ i = 0)
    (hT : (hold.length : Int) ≤ P.kLongPressDurationForMultiModeToggle)
    (h32 : hold.length ≤ 2147483647) :
    let w := run P (hold ++ [rel]) u
    w.state.multimode = u.state.multimode ∧
    w.press_time_ i = 0 ∧
    w.press_time_multimode_toggle_ i = 0 ∧
    w.state.segment_configuration i =
      bankAConfig P false hold.length (u.state.segment_configuration i) ∧
    w.multimode_toggle_calls = u.multimode_toggle_calls ∧
    w.suspend_switches_calls = u.suspend_switches_calls ∧
    (OthersIdle P i u →
      (∀ j, j ≠ i → w.state.segment_configuration j = u.state.segment_configuration j) ∧
      OthersIdle P i w ∧
      w.save_state_calls = u.save_state_calls + bankASaves P false hold.length) := by
  obtain ⟨a1, a2, a3, a4, a5, a6, a7⟩ :=
    run_hold P i hi hold hp u hm 0 (by simpa using hpt) (by simpa using hptm)
      (by simpa using hT) (by simpa using h32)
  simp only [Nat.zero_add] at a2 a3
  obtain ⟨b1, b2, b3, b4, b5, b6, b7⟩ :=
    Poll_release P i hi rel hr (run P hold u) (by rw [a1]; exact hm)
  simp only [run_append, run]
  refine ⟨by rw [b1, a1], b2, b3, by rw [b4, a2, a4], by rw [b5, a5], by rw [b6, a6], ?_⟩
  intro hq
  obtain ⟨c1, c2, c3⟩ := a7 hq
  obtain ⟨d1, d2, d3⟩ := b7 c2
  exact ⟨fun j hj => by rw [d1 j hj, c1 j hj], d2, by rw [d3, c3, a2]⟩

/-! ## Configuration byte arithmetic -/

theorem bankAConfig_tap (P : Params) (k : Nat) (h1 : 1 ≤ k) (h2 : k ≤ 500) (c : Nat) :
    bankAConfig P false k c =
      ((c &&& 0b11001111) ||| (((((c &&& 0b00110000) >>> 4) + 1) % 3) <<< 4)) % 256 := by
  simp only [bankAConfig, kLongPressDuration, Bool.false_eq_true, if_false]
  split_ifs <;> first | rfl | omega

theorem bankAConfig_long (P : Params) (k : Nat) (h1 : 500 < k)
    (h2 : (k : Int) < P.kLongPressDurationForMultiModeToggle) (c : Nat) :
    bankAConfig P false k c = (c ^^^ 0b01000000) % 256 := by
  simp only [bankAConfig, kLongPressDuration, Bool.false_eq_true, if_false]
  split_ifs <;> first | rfl | omega

set_option maxRecDepth 1000000 in
theorem tap_byte_type : ∀ c, c < 256 →
    ouroborosType
      (((c &&& 0b11001111) ||| (((((c &&& 0b00110000) >>> 4) + 1) % 3) <<< 4)) % 256) =
      (ouroborosType c + 1) % 3 := by
  decide

set_option maxRecDepth 1000000 in
theorem tap_byte_bits : ∀ c, c < 256 → ∀ b, b < 8 → b ≠ 4 → b ≠ 5 →
    (((c &&& 0b11001111) ||| (((((c &&& 0b00110000) >>> 4) + 1) % 3) <<< 4)) % 256).testBit b =
      c.testBit b := by
  decide

set_option maxRecDepth 1000000 in
theorem tap_byte_primary : ∀ c, c < 256 →
    (((c &&& 0b11001111) ||| (((((c &&& 0b00110000) >>> 4) + 1) % 3) <<< 4)) % 256) &&& 0x3 =
      c &&& 0x3 := by
  decide

set_option maxRecDepth 1000000 in
theorem flip_byte : ∀ c, c < 256 → (c ^^^ 0b01000000) % 256 = c ^^^ 0b01000000 := by
  decide

theorem testBit_byte_high {c b : Nat} (hc : c < 256) (hb : 8 ≤ b) : c.testBit b = false := by
  apply Nat.testBit_lt_two_pow
  calc c < 2 ^ 8 := hc
    _ ≤ 2 ^ b := Nat.pow_le_pow_right (by decide) hb

theorem isPress_pressFor (i k : Nat) : IsPress i k (pressFor i k) :=
  ⟨List.replicate k (pressOnly i), pressNone, rfl, List.length_replicate _ _,
    fun inp h => by rw [List.eq_of_mem_replicate h]; intro j; rfl, fun _ => rfl⟩

/-- Effect of a press-and-release gesture on switch `i` from rest, in an
Ouroboros mode, when it ends before Bank B fires. -/
theorem run_isPress (P : Params) (i : Nat) (hi : i < P.kNumSwitches) (k : Nat)
    (l : List Inputs) (hl : IsPress i k l) (u : Ui)
    (hm : isOuroboros u.state.multimode = true)
    (hpt : u.press_time_ i = 0) (hptm : u.press_time_multimode_toggle_ i = 0)
    (hT : (k : Int) ≤ P.kLongPressDurationForMultiModeToggle)
    (h32 : k ≤ 2147483647) :
    let w := run P l u
    w.state.multimode = u.state.multimode ∧
    w.press_time_ i = 0 ∧
    w.press_time_multimode_toggle_ i = 0 ∧
    w.state.segment_configuration i = bankAConfig P false k (u.state.segment_configuration i) ∧
    w.multimode_toggle_calls = u.multimode_toggle_calls ∧
    w.suspend_switches_calls = u.suspend_switches_calls ∧
    (OthersIdle P i u →
      (∀ j, j ≠ i → w.state.segment_configuration j = u.state.segment_configuration j) ∧
      OthersIdle P i w ∧
      w.save_state_calls = u.save_state_calls + bankASaves P false k) := by
  obtain ⟨hold, rel, rfl, rfl, hp, hr⟩ := hl
  exact run_press_release P i hi hold rel hp hr u hm hpt hptm hT h32

/-- One tap on switch `i` from rest in an Ouroboros mode: the state is at rest
again, still in the same mode, and the byte of `i` has been cycled. -/
theorem run_tap (P : Params) (i : Nat) (hi : i < P.kNumSwitches)
    (hT : kLongPressDuration ≤ P.kLongPressDurationForMultiModeToggle)
    (k : Nat) (l : List Inputs) (hl : IsPress i k l) (h1 : 1 ≤ k) (h2 : k ≤ 500) (u : Ui)
    (hm : isOuroboros u.state.multimode = true)
    (hpt : u.press_time_ i = 0) (hptm : u.press_time_multimode_toggle_ i = 0)
    (hbyte : u.state.segment_configuration i < 256) :
    let w := run P l u
    isOuroboros w.state.multimode = true ∧
    w.press_time_ i = 0 ∧
    w.press_time_multimode_toggle_ i = 0 ∧
    w.state.segment_configuration i < 256 ∧
    ouroborosType (w.state.segment_configuration i) =
      (ouroborosType (u.state.segment_configuration i) + 1) % 3 := by
  have hk : (k : Int) ≤ P.kLongPressDurationForMultiModeToggle := by
    simp only [kLongPressDuration] at hT; omega
  obtain ⟨a1, a2, a3, a4, _, _, _⟩ := run_isPress P i hi k l hl u hm hpt hptm hk (by omega)
  rw [bankAConfig_tap P k h1 h2] at a4
  refine ⟨by rw [a1]; exact hm, a2, a3, ?_, ?_⟩
  · rw [a4]; exact Nat.mod_lt _ (by decide)
  · rw [a4]; exact tap_byte_type _ hbyte

/-! ## C1 -/

/-- C1, counterexample: with bits 4-5 of the byte of channel 0 equal to 3, three
consecutive one-tick taps on channel 0 in Ouroboros mode, from rest, leave the
field at 0 and not at its original value 3 (the field goes 3, 1, 2, 0). -/
theorem three_taps_from_type_three :
    isOuroboros (demoUi MULTI_MODE_OUROBOROS 0x30).state.multimode = true ∧
    (demoUi MULTI_MODE_OUROBOROS 0x30).press_time_ 0 = 0 ∧
    ouroborosType ((demoUi MULTI_MODE_OUROBOROS 0x30).state.segment_configuration 0) = 3 ∧
    ouroborosType ((run demoParams (pressFor 0 1)
      (demoUi MULTI_MODE_OUROBOROS 0x30)).state.segment_configuration 0) = 1 ∧
    ouroborosType ((run demoParams (pressFor 0 1 ++ pressFor 0 1)
      (demoUi MULTI_MODE_OUROBOROS 0x30)).state.segment_configuration 0) = 2 ∧
    ouroborosType ((run demoParams (pressFor 0 1 ++ pressFor 0 1 ++ pressFor 0 1)
      (demoUi MULTI_MODE_OUROBOROS 0x30)).state.segment_configuration 0) = 0 := by
  decide

/-- C1 (amended): in an Ouroboros mode, for every channel `i` and every
configuration byte, three consecutive taps on `i` from rest (each: `i` alone held
for 1 to 500 ticks, then one released tick) take the field in bits 4-5 from `f`
to `(f + 1) % 3`, `(f + 2) % 3` and `f % 3`; so the field is back at its
original value whenever that value is 0, 1 or 2. -/
theorem three_taps_cycle (P : Params) (i : Nat) (hi : i < P.kNumSwitches)
    (hT : kLongPressDuration ≤ P.kLongPressDurationForMultiModeToggle)
    (u : Ui) (hm : isOuroboros u.state.multimode = true)
    (hpt : u.press_time_ i = 0) (hptm : u.press_time_multimode_toggle_ i = 0)
    (hbyte : u.state.segment_configuration i < 256)
    (k1 k2 k3 : Nat) (t1 t2 t3 : List Inputs)
    (h1 : IsPress i k1 t1) (h2 : IsPress i k2 t2) (h3 : IsPress i k3 t3)
    (hk1 : 1 ≤ k1 ∧ k1 ≤ 500) (hk2 : 1 ≤ k2 ∧ k2 ≤ 500) (hk3 : 1 ≤ k3 ∧ k3 ≤ 500) :
    let f := ouroborosType (u.state.segment_configuration i)
    let f1 := ouroborosType ((run P t1 u).state.segment_configuration i)
    let f2 := ouroborosType ((run P (t1 ++ t2) u).state.segment_configuration i)
    let f3 := ouroborosType ((run P (t1 ++ t2 ++ t3) u).state.segment_configuration i)
    f1 = (f + 1) % 3 ∧ f2 = (f + 2) % 3 ∧ f3 = f % 3 ∧ (f ≠ 3 → f3 = f) := by
  obtain ⟨a1, a2, a3, a4, a5⟩ :=
    run_tap P i hi hT k1 t1 h1 hk1.1 hk1.2 u hm hpt hptm hbyte
  obtain ⟨b1, b2, b3, b4, b5⟩ :=
    run_tap P i hi hT k2 t2 h2 hk2.1 hk2.2 (run P t1 u) a1 a2 a3 a4
  obtain ⟨_, _, _, _, c5⟩ :=
    run_tap P i hi hT k3 t3 h3 hk3.1 hk3.2 (run P t2 (run P t1 u)) b1 b2 b3 b4
  have hf : ouroborosType (u.state.segment_configuration i) ≤ 3 := Nat.and_le_right
  simp only [run_append]
  rw [c5, b5, a5]
  refine ⟨rfl, by omega, by omega, fun h => by omega⟩

/-- C1 (amended), instance: three one-tick taps on channel 0 of the six-switch
device, from rest in Ouroboros mode with every byte 0x10. -/
theorem three_taps_cycle_witness :
    ouroborosType ((run demoParams (pressFor 0 1 ++ pressFor 0 1 ++ pressFor 0 1)
      (demoUi MULTI_MODE_OUROBOROS 0x10)).state.segment_configuration 0) =
      ouroborosType ((demoUi MULTI_MODE_OUROBOROS 0x10).state.segment_configuration 0) :=
  (three_taps_cycle demoParams 0 (by decide) (by decide) (demoUi MULTI_MODE_OUROBOROS 0x10)
    rfl rfl rfl (by decide) 1 1 1 (pressFor 0 1) (pressFor 0 1) (pressFor 0 1)
    (isPress_pressFor 0 1) (isPress_pressFor 0 1) (isPress_pressFor 0 1)
    (by decide) (by decide) (by decide)).2.2.2 (by decide)

/-! ## C2 -/

/-- C2: in an Ouroboros mode, a single tap on channel `i` from rest (`i` alone
held for 1 to 500 ticks, then released; no press pending on another channel)
replaces bits 4-5 of the byte of `i` by `(old field + 1) % 3`, leaves every
other bit of that byte unchanged (the primary type in bits 0-1 included), leaves
the byte of every other channel unchanged, and calls `SaveState` once. -/
theorem tap_cycles_type (P : Params) (i : Nat) (hi : i < P.kNumSwitches)
    (hT : kLongPressDuration ≤ P.kLongPressDurationForMultiModeToggle)
    (k : Nat) (l : List Inputs) (hl : IsPress i k l) (h1 : 1 ≤ k) (h2 : k ≤ 500) (u : Ui)
    (hm : isOuroboros u.state.multimode = true)
    (hpt : u.press_time_ i = 0) (hptm : u.press_time_multimode_toggle_ i = 0)
    (hbyte : u.state.segment_configuration i < 256) (hidle : OthersIdle P i u) :
    let w := run P l u
    let c := u.state.segment_configuration i
    let d := w.state.segment_configuration i
    ouroborosType d = (ouroborosType c + 1) % 3 ∧
    (∀ b, b ≠ 4 → b ≠ 5 → d.testBit b = c.testBit b) ∧
    d &&& 0x3 = c &&& 0x3 ∧
    (∀ j, j ≠ i → w.state.segment_configuration j = u.state.segment_configuration j) ∧
    w.save_state_calls = u.save_state_calls + 1 := by
  have hk : (k : Int) ≤ P.kLongPressDurationForMultiModeToggle := by
    simp only [kLongPressDuration] at hT; omega
  obtain ⟨_, _, _, a4, _, _, a7⟩ := run_isPress P i hi k l hl u hm hpt hptm hk (by omega)
  obtain ⟨c1, _, c3⟩ := a7 hidle
  rw [bankAConfig_tap P k h1 h2] at a4
  have hd : (run P l u).state.segment_configuration i < 256 := by
    rw [a4]; exact Nat.mod_lt _ (by decide)
  refine ⟨by rw [a4]; exact tap_byte_type _ hbyte, ?_, by rw [a4]; exact tap_byte_primary _ hbyte,
    c1, ?_⟩
  · intro b hb4 hb5
    by_cases hb : b < 8
    · rw [a4]; exact tap_byte_bits _ hbyte b hb hb4 hb5
    · rw [testBit_byte_high hd (by omega), testBit_byte_high hbyte (by omega)]
  · rw [c3]
    have : bankASaves P false (k : Int) = 1 := by
      simp only [bankASaves, kLongPressDuration, Bool.false_eq_true, if_false]
      split_ifs <;> first | rfl | omega
    rw [this]

/-- C2, instance: a three-tick tap on channel 2 of the six-switch device, from
rest in Ouroboros-alternate mode with every byte 0xA7. -/
theorem tap_cycles_type_witness :
    ouroborosType ((run demoParams (pressFor 2 3)
      (demoUi MULTI_MODE_OUROBOROS_ALTERNATE 0xA7)).state.segment_configuration 2) =
      (ouroborosType 0xA7 + 1) % 3 :=
  (tap_cycles_type demoParams 2 (by decide) (by decide) 3 (pressFor 2 3)
    (isPress_pressFor 2 3) (by decide) (by decide) (demoUi MULTI_MODE_OUROBOROS_ALTERNATE 0xA7)
    rfl rfl rfl (by decide) (fun _ _ _ => le_refl _)).1

/-! ## C3 -/

/-- C3: in an Ouroboros mode, holding switch `i` alone from rest for `k` ticks
with `kLongPressDuration + 1 ≤ k ≤ kLongPressDurationForMultiModeToggle - 1` and
releasing it (no press pending on another channel) flips bit 6 of the byte of
`i` and changes no other bit of that byte nor the byte of any other channel. -/
theorem long_press_flips_bit6 (P : Params) (i : Nat) (hi : i < P.kNumSwitches)
    (hT32 : P.kLongPressDurationForMultiModeToggle ≤ 2147483647)
    (k : Nat) (l : List Inputs) (hl : IsPress i k l)
    (h1 : kLongPressDuration + 1 ≤ k) (h2 : (k : Int) ≤ P.kLongPressDurationForMultiModeToggle - 1)
    (u : Ui) (hm : isOuroboros u.state.multimode = true)
    (hpt : u.press_time_ i = 0) (hptm : u.press_time_multimode_toggle_ i = 0)
    (hbyte : u.state.segment_configuration i < 256) (hidle : OthersIdle P i u) :
    let w := run P l u
    let c := u.state.segment_configuration i
    let d := w.state.segment_configuration i
    d = c ^^^ 0b01000000 ∧
    (∀ b, d.testBit b = if b = 6 then !c.testBit b else c.testBit b) ∧
    (∀ j, j ≠ i → w.state.segment_configuration j = u.state.segment_configuration j) := by
  simp only [kLongPressDuration] at h1
  obtain ⟨_, _, _, a4, _, _, a7⟩ :=
    run_isPress P i hi k l hl u hm hpt hptm (by omega) (by omega)
  obtain ⟨c1, _, _⟩ := a7 hidle
  rw [bankAConfig_long P k (by omega) (by omega), flip_byte _ hbyte] at a4
  refine ⟨a4, ?_, c1⟩
  intro b
  rw [a4, Nat.testBit_xor]
  have h64 : (0b01000000 : Nat).testBit b = decide (6 = b) :=
    @Nat.testBit_two_pow 6 b
  rw [h64]
  by_cases hb : b = 6
  · subst hb; simp
  · have : ¬ 6 = b := fun h => hb h.symm
    simp [hb, this]

/-- C3, instance: a 501-tick hold of channel 5 of the six-switch device, from
rest in Ouroboros mode with every byte 0x25: the byte of channel 5 becomes 0x65. -/
theorem long_press_flips_bit6_witness :
    (run demoParams (pressFor 5 501)
      (demoUi MULTI_MODE_OUROBOROS 0x25)).state.segment_configuration 5 = 0x65 :=
  (long_press_flips_bit6 demoParams 5 (by decide) (by decide) 501 (pressFor 5 501)
    (isPress_pressFor 5 501) (by decide) (by decide) (demoUi MULTI_MODE_OUROBOROS 0x25)
    rfl rfl rfl (by decide) (fun _ _ _ => le_refl _)).1

/-! ## C4 -/

/-- Across the Bank B loop, either the mode and the Bank A counter of `i` are
what they were, or the Bank A counter of `i` is frozen. -/
theorem bankB_loop_freeze (P : Params) (pressed : Nat → Bool) (i : Nat)
    (hi : i < P.kNumSwitches) (n : Nat) (u : Ui) :
    let v := forLoop (bankBStep P pressed) n u
    (v.state.multimode = u.state.multimode ∧ v.press_time_ i = u.press_time_ i) ∨
      v.press_time_ i = -1 := by
  induction n with
  | zero => left; exact ⟨rfl, rfl⟩
  | succ n ih =>
    simp only [forLoop_succ, bankBStep_eq]
    simp only at ih
    split_ifs with hf
    · simp only [MultiModeToggle_eq]
      by_cases hc : (forLoop (bankBStep P pressed) n u).state.multimode = multimodes_ n
      · simp only [hc, ne_eq, not_true_eq_false, if_false]
        rw [← hc]
        exact ih
      · right
        simp [hc, fill_apply, hi]
    · exact ih

/-- One tick, from a state in which Bank A cannot act on channel `i` (the mode
is not an Ouroboros mode, or the counter of `i` is frozen): the byte of `i` is
unchanged, and if `i` is pressed Bank A still cannot act on `i` after the tick. -/
theorem Poll_gated (P : Params) (i : Nat) (hi : i < P.kNumSwitches) (inp : Inputs) (u : Ui)
    (hJ : isOuroboros u.state.multimode = false ∨ u.press_time_ i = -1) :
    (Poll P inp u).state.segment_configuration i = u.state.segment_configuration i ∧
    (inp.pressed i = true →
      isOuroboros (Poll P inp u).state.multimode = false ∨
        (Poll P inp u).press_time_ i = -1) := by
  obtain ⟨h1, h2, h3, h4, h5, h6, _⟩ := render_fields P inp.chain u
  simp only [Poll]
  rw [h3]
  cases hm : isOuroboros u.state.multimode
  · simp only [Bool.false_eq_true, if_false]
    constructor
    · rw [(bankB_loop_frame P inp.pressed P.kNumSwitches _).1, h3]
    · intro _
      rcases bankB_loop_freeze P inp.pressed i hi P.kNumSwitches
        { UpdateLEDs P inp.chain (Tick u) with
          local_switch_pressed := pressedMask P inp.pressed } with h | h
      · left
        simp only at h
        rw [h.1, h3, hm]
      · right; exact h
  · have hpt : u.press_time_ i = -1 := by
      rcases hJ with h | h
      · rw [hm] at h; cases h
      · exact h
    simp only [if_true]
    constructor
    · rw [(bankB_loop_frame P inp.pressed P.kNumSwitches _).1, bankA_loop]
      simp [hi, h1, h3, hpt, bankAConfig, kLongPressDuration]
    · intro hp
      right
      rcases bankB_loop_freeze P inp.pressed i hi P.kNumSwitches
        { forLoop (bankAStep P inp.pressed) P.kNumSwitches (UpdateLEDs P inp.chain (Tick u)) with
          local_switch_pressed := pressedMask P inp.pressed } with h | h
      · simp only at h
        rw [h.2, bankA_loop]
        simp [hi, h1, hpt, hp, bankATime]
      · exact h

/-- While switch `i` stays pressed, from a state in which Bank A cannot act on
channel `i`, the byte of `i` is unchanged and Bank A still cannot act on `i`. -/
theorem run_gated (P : Params) (i : Nat) (hi : i < P.kNumSwitches) (hold : List Inputs)
    (hp : ∀ inp ∈ hold, inp.pressed i = true) (u : Ui)
    (hJ : isOuroboros u.state.multimode = false ∨ u.press_time_ i = -1) :
    (run P hold u).state.segment_configuration i = u.state.segment_configuration i ∧
    (isOuroboros (run P hold u).state.multimode = false ∨ (run P hold u).press_time_ i = -1) := by
  induction hold generalizing u with
  | nil => exact ⟨rfl, hJ⟩
  | cons inp rest ih =>
    obtain ⟨a1, a2⟩ := Poll_gated P i hi inp u hJ
    obtain ⟨b1, b2⟩ := ih (fun x hx => hp x (List.mem_cons_of_mem _ hx)) (Poll P inp u)
      (a2 (hp inp (List.mem_cons_self _ _)))
    simp only [run]
    exact ⟨by rw [b1, a1], b2⟩

/-- C4: Bank A is mode-gated. From any state whose mode is not an Ouroboros mode
and for any inputs, one Poll tick leaves every configuration byte unchanged; and
holding switch `i` for any number of ticks (501 in particular) and releasing it,
whatever the other switches do meanwhile, leaves the byte of `i` unchanged. -/
theorem bankA_mode_gated (P : Params) (u : Ui) (hm : isOuroboros u.state.multimode = false) :
    (∀ inp, (Poll P inp u).state.segment_configuration = u.state.segment_configuration) ∧
    (∀ i, i < P.kNumSwitches → ∀ (hold : List Inputs) (rel : Inputs),
      (∀ inp ∈ hold, inp.pressed i = true) → rel.pressed i = false →
      (run P (hold ++ [rel]) u).state.segment_configuration i =
        u.state.segment_configuration i) := by
  constructor
  · intro inp
    obtain ⟨_, _, h3, _⟩ := render_fields P inp.chain u
    simp only [Poll]
    rw [h3, hm]
    simp only [Bool.false_eq_true, if_false]
    rw [(bankB_loop_frame P inp.pressed P.kNumSwitches _).1, h3]
  · intro i hi hold rel hp _
    obtain ⟨a1, a2⟩ := run_gated P i hi hold hp u (Or.inl hm)
    obtain ⟨b1, _⟩ := Poll_gated P i hi rel (run P hold u) a2
    simp only [run_append, run]
    rw [b1, a1]

/-- C4, instance: in Stages mode on the six-switch device, holding switch 3 for
501 ticks and releasing it leaves its byte at 0x25. -/
theorem bankA_mode_gated_witness :
    (run demoParams (List.replicate 501 (pressOnly 3) ++ [pressNone])
      (demoUi MULTI_MODE_STAGES 0x25)).state.segment_configuration 3 =
      (demoUi MULTI_MODE_STAGES 0x25).state.segment_configuration 3 :=
  (bankA_mode_gated demoParams (demoUi MULTI_MODE_STAGES 0x25) rfl).2 3 (by decide)
    (List.replicate 501 (pressOnly 3)) pressNone
    (fun inp h => by rw [List.eq_of_mem_replicate h]; rfl) rfl

/-! ## C5 -/

/-- Bank B over one tick, in any mode and for any inputs: the counters follow
`bankBTime` and `MultiModeToggle(j)` is called exactly when `bankBFires`. -/
theorem Poll_bankB (P : Params) (inp : Inputs) (u : Ui) :
    ((Poll P inp u).press_time_multimode_toggle_ = fun j =>
      if j < P.kNumSwitches then bankBTime P (inp.pressed j) (u.press_time_multimode_toggle_ j)
      else u.press_time_multimode_toggle_ j) ∧
    ((Poll P inp u).multimode_toggle_calls = fun j =>
      u.multimode_toggle_calls j +
        (if j < P.kNumSwitches ∧
            bankBFires P (inp.pressed j) (u.press_time_multimode_toggle_ j) then 1 else 0)) := by
  obtain ⟨h1, h2, h3, h4, h5, h6, _⟩ := render_fields P inp.chain u
  simp only [Poll, bankB_loop_time, bankB_loop_calls]
  split_ifs <;> simp [bankA_loop, h2, h6]

/-- Expected value of the Bank B counter of a switch held for `m` ticks from 0. -/
theorem Poll_hold_bankB (P : Params) (i : Nat) (hi : i < P.kNumSwitches)
    (hT0 : 0 ≤ P.kLongPressDurationForMultiModeToggle)
    (hT32 : P.kLongPressDurationForMultiModeToggle < 2147483647)
    (inp : Inputs) (hp : inp.pressed i = true) (u : Ui) (t : Nat)
    (ht : u.press_time_multimode_toggle_ i =
      if (t : Int) ≤ P.kLongPressDurationForMultiModeToggle then (t : Int) else -1) :
    (Poll P inp u).press_time_multimode_toggle_ i =
      (if ((t + 1 : Nat) : Int) ≤ P.kLongPressDurationForMultiModeToggle
        then ((t + 1 : Nat) : Int) else -1) ∧
    (Poll P inp u).multimode_toggle_calls i = u.multimode_toggle_calls i +
      (if (t : Int) = P.kLongPressDurationForMultiModeToggle then 1 else 0) := by
  obtain ⟨h1, h2⟩ := Poll_bankB P inp u
  rw [h1, h2]
  simp only [hi, if_true, hp, bankBTime, bankBFires, bankBCount, true_and, ht, incr32]
  push_cast
  constructor
  · split_ifs <;> omega
  · split_ifs <;> omega

theorem run_hold_bankB (P : Params) (i : Nat) (hi : i < P.kNumSwitches)
    (hT0 : 0 ≤ P.kLongPressDurationForMultiModeToggle)
    (hT32 : P.kLongPressDurationForMultiModeToggle < 2147483647)
    (hold : List Inputs) (hp : ∀ inp ∈ hold, inp.pressed i = true) (u : Ui) (t : Nat)
    (ht : u.press_time_multimode_toggle_ i =
      if (t : Int) ≤ P.kLongPressDurationForMultiModeToggle then (t : Int) else -1) :
    (run P hold u).press_time_multimode_toggle_ i =
      (if ((t + hold.length : Nat) : Int) ≤ P.kLongPressDurationForMultiModeToggle
        then ((t + hold.length : Nat) : Int) else -1) ∧
    (run P hold u).multimode_toggle_calls i = u.multimode_toggle_calls i +
      (if (t : Int) ≤ P.kLongPressDurationForMultiModeToggle ∧
          P.kLongPressDurationForMultiModeToggle + 1 ≤ ((t + hold.length : Nat) : Int)
        then 1 else 0) := by
  induction hold generalizing u t with
  | nil =>
    simp only [run, List.length_nil, Nat.add_zero]
    refine ⟨ht, ?_⟩
    split_ifs <;> omega
  | cons inp rest ih =>
    obtain ⟨a1, a2⟩ :=
      Poll_hold_bankB P i hi hT0 hT32 inp (hp inp (List.mem_cons_self _ _)) u t ht
    obtain ⟨b1, b2⟩ :=
      ih (fun x hx => hp x (List.mem_cons_of_mem _ hx)) (Poll P inp u) (t + 1) a1
    simp only [run, List.length_cons]
    have e : t + (rest.length + 1) = t + 1 + rest.length := by omega
    simp only [e]
    refine ⟨b1, ?_⟩
    rw [b2, a2]
    push_cast
    split_ifs <;> omega

/-- C5: Bank B fires once per physical hold. Starting from
`press_time_multimode_toggle_[i] = 0` and holding switch `i` through the ticks of
`hold`, whatever the other switches and the mode do, after `m` ticks the number
of calls of `MultiModeToggle(i)` has grown by 1 if `m ≥ threshold + 1` and by 0
otherwise (so the call is made on tick `threshold + 1` and on no other tick), and
the counter is `m` up to the threshold and the sentinel -1 afterwards; the tick
on which `i` is found released resets the counter to 0 without a call. -/
theorem very_long_press_fires_once (P : Params) (i : Nat) (hi : i < P.kNumSwitches)
    (hT0 : 0 ≤ P.kLongPressDurationForMultiModeToggle)
    (hT32 : P.kLongPressDurationForMultiModeToggle < 2147483647)
    (u : Ui) (h0 : u.press_time_multimode_toggle_ i = 0)
    (hold : List Inputs) (hp : ∀ inp ∈ hold, inp.pressed i = true) :
    (∀ m, m ≤ hold.length →
      (run P (hold.take m) u).multimode_toggle_calls i = u.multimode_toggle_calls i +
        (if P.kLongPressDurationForMultiModeToggle + 1 ≤ (m : Int) then 1 else 0) ∧
      (run P (hold.take m) u).press_time_multimode_toggle_ i =
        (if (m : Int) ≤ P.kLongPressDurationForMultiModeToggle then (m : Int) else -1)) ∧
    (∀ rel : Inputs, rel.pressed i = false →
      (Poll P rel (run P hold u)).press_time_multimode_toggle_ i = 0 ∧
      (Poll P rel (run P hold u)).multimode_toggle_calls i =
        (run P hold u).multimode_toggle_calls i) := by
  constructor
  · intro m hm
    have hlen : (hold.take m).length = m := by
      rw [List.length_take]; omega
    obtain ⟨a1, a2⟩ := run_hold_bankB P i hi hT0 hT32 (hold.take m)
      (fun x hx => hp x (List.mem_of_mem_take hx)) u 0 (by simp [h0, hT0])
    rw [hlen] at a1 a2
    simp only [Nat.zero_add] at a1 a2
    refine ⟨?_, a1⟩
    rw [a2]
    push_cast
    split_ifs <;> omega
  · intro rel hr
    obtain ⟨h1, h2⟩ := Poll_bankB P rel (run P hold u)
    rw [h1, h2]
    simp [hi, hr, bankBTime, bankBFires]

/-- C5, instance: switch 0 of the six-switch device (threshold 5000) held from
rest; after 5001 ticks `MultiModeToggle(0)` has been called once and the counter
is frozen at -1. -/
theorem very_long_press_fires_once_witness :
    (run demoParams ((List.replicate 5002 (pressOnly 0)).take 5001)
      (demoUi MULTI_MODE_OUROBOROS 0)).multimode_toggle_calls 0 = 1 ∧
    (run demoParams ((List.replicate 5002 (pressOnly 0)).take 5001)
      (demoUi MULTI_MODE_OUROBOROS 0)).press_time_multimode_toggle_ 0 = -1 := by
  have h := (very_long_press_fires_once demoParams 0 (by decide) (by decide) (by decide)
    (demoUi MULTI_MODE_OUROBOROS 0) rfl (List.replicate 5002 (pressOnly 0))
    (fun inp h => by rw [List.eq_of_mem_replicate h]; rfl)).1 5001
    (by rw [List.length_replicate]; omega)
  exact ⟨h.1.trans (by decide), h.2.trans (by decide)⟩

/-! ## C6 -/

/-- The Bank B loop when exactly one switch, `i`, fires. -/
theorem bankB_loop_single (P : Params) (pressed : Nat → Bool) (i n : Nat) (u : Ui)
    (hin : i < n) (hf : bankBFires P (pressed i) (u.press_time_multimode_toggle_ i))
    (hn : ∀ j, j < n → j ≠ i →
      ¬ bankBFires P (pressed j) (u.press_time_multimode_toggle_ j)) :
    forLoop (bankBStep P pressed) n u =
      { MultiModeToggle P i u with
        press_time_multimode_toggle_ := fun j =>
          if j < n then bankBTime P (pressed j) (u.press_time_multimode_toggle_ j)
          else u.press_time_multimode_toggle_ j } := by
  induction n with
  | zero => omega
  | succ n ih =>
    by_cases h : i = n
    · subst h
      rw [forLoop_succ, bankB_loop_nofire P pressed i u
        (fun j hj => hn j (Nat.lt_succ_of_lt hj) (by omega)), bankBStep_eq]
      simp only [lt_irrefl, if_false, hf, if_true, MultiModeToggle_eq]
      congr 1
      funext j
      by_cases h : j = i
      · subst h; simp
      · simp [Function.update_noteq h, lt_succ_of_ne h]
    · rw [forLoop_succ, ih (by omega) (fun j hj => hn j (Nat.lt_succ_of_lt hj)), bankBStep_eq]
      have hnn := hn n (Nat.lt_succ_self n) (fun e => h e.symm)
      simp only [lt_irrefl, if_false, hnn, MultiModeToggle_eq]
      congr 1
      funext j
      by_cases h : j = n
      · subst h; simp
      · simp [Function.update_noteq h, lt_succ_of_ne h]

/-- A tick is the Bank B loop run on a state `v` (the state after rendering and
Bank A) whose mode, Bank B counters and call counts are those before the tick. -/
theorem Poll_phases (P : Params) (inp : Inputs) (u : Ui) :
    ∃ v : Ui, Poll P inp u = forLoop (bankBStep P inp.pressed) P.kNumSwitches v ∧
      v.press_time_multimode_toggle_ = u.press_time_multimode_toggle_ ∧
      v.state.multimode = u.state.multimode ∧
      v.multimode_toggle_calls = u.multimode_toggle_calls ∧
      v.press_time_ =
        (if isOuroboros u.state.multimode = true then fun j =>
          if j < P.kNumSwitches then bankATime (inp.pressed j) (u.press_time_ j)
          else u.press_time_ j
        else u.press_time_) := by
  obtain ⟨h1, h2, h3, h4, h5, h6, _⟩ := render_fields P inp.chain u
  refine ⟨_, rfl, ?_, ?_, ?_, ?_⟩
  · simp only [h3]; split_ifs <;> simp [bankA_loop, h2]
  · simp only [h3]; split_ifs <;> simp [bankA_loop, h3]
  · simp only [h3]; split_ifs <;> simp [bankA_loop, h6]
  · simp only [h3]; split_ifs <;> simp [bankA_loop, h1]

/-- The tick on which the hold of switch `i`, pressed alone, crosses the
very-long-press threshold. -/
theorem Poll_fire_only (P : Params) (i : Nat) (hi : i < P.kNumSwitches) (inp : Inputs)
    (hp : OnlyPressed i inp) (u : Ui)
    (hf : bankBFires P true (u.press_time_multimode_toggle_ i)) :
    let w := Poll P inp u
    w.state.multimode = multimodes_ i ∧
    w.multimode_toggle_calls i = u.multimode_toggle_calls i + 1 ∧
    w.press_time_multimode_toggle_ i = -1 ∧
    (isOuroboros u.state.multimode = true → u.state.multimode = multimodes_ i →
      w.press_time_ i = bankATime true (u.press_time_ i)) ∧
    (u.state.multimode ≠ multimodes_ i → ∀ j, j < P.kNumSwitches → w.press_time_ j = -1) := by
  obtain ⟨b1, b2⟩ := Poll_bankB P inp u
  obtain ⟨v, e, v1, v2, v3, v4⟩ := Poll_phases P inp u
  have hpi : inp.pressed i = true := by rw [hp i]; simp
  have hfire := bankB_loop_single P inp.pressed i P.kNumSwitches v hi
    (by rw [v1, hpi]; exact hf) (fun j _ hj => by simp [bankBFires, hp j, hj])
  rw [← e] at hfire
  refine ⟨?_, ?_, ?_, ?_, ?_⟩
  · simp [hfire, MultiModeToggle_eq]
  · rw [b2]; simp [hi, hpi, hf]
  · rw [b1]
    have := hf.2
    simp [hi, hpi, bankBTime, this]
  · intro hm he
    have hm2 : isOuroboros (multimodes_ i) = true := he ▸ hm
    simp [hfire, MultiModeToggle_eq, v2, v4, he, hm2, hi, hpi]
  · intro hne j hj
    simp [hfire, MultiModeToggle_eq, v2, hne, fill_apply, hj]

/-- Across the Bank B loop, either the mode is what it was or every Bank A
counter is frozen. -/
theorem bankB_loop_mode_change (P : Params) (pressed : Nat → Bool) (n : Nat) (u : Ui) :
    let v := forLoop (bankBStep P pressed) n u
    v.state.multimode = u.state.multimode ∨ ∀ j, j < P.kNumSwitches → v.press_time_ j = -1 := by
  induction n with
  | zero => left; rfl
  | succ n ih =>
    simp only [forLoop_succ, bankBStep_eq]
    simp only at ih
    split_ifs with hf
    · simp only [MultiModeToggle_eq]
      by_cases hc : (forLoop (bankBStep P pressed) n u).state.multimode = multimodes_ n
      · simp only [hc, ne_eq, not_true_eq_false, if_false]
        rw [← hc]
        exact ih
      · right
        intro j hj
        simp [hc, fill_apply, hj]
    · exact ih

/-- If a tick changes the persisted mode, every Bank A counter is frozen after it. -/
theorem Poll_mode_change (P : Params) (inp : Inputs) (u : Ui)
    (h : (Poll P inp u).state.multimode ≠ u.state.multimode) :
    ∀ j, j < P.kNumSwitches → (Poll P inp u).press_time_ j = -1 := by
  obtain ⟨v, e, v1, v2, v3, v4⟩ := Poll_phases P inp u
  rcases bankB_loop_mode_change P inp.pressed P.kNumSwitches v with hq | hq
  · exfalso
    apply h
    rw [e, ← v2]
    exact hq
  · rw [e]; exact hq

/-- A frozen Bank A counter stays frozen while its switch is pressed. -/
theorem Poll_frozen (P : Params) (i : Nat) (hi : i < P.kNumSwitches) (inp : Inputs)
    (hp : inp.pressed i = true) (u : Ui) (hf : u.press_time_ i = -1) :
    (Poll P inp u).press_time_ i = -1 := by
  obtain ⟨v, e, v1, v2, v3, v4⟩ := Poll_phases P inp u
  rcases bankB_loop_freeze P inp.pressed i hi P.kNumSwitches v with hq | hq
  · rw [e, hq.2, v4]
    split_ifs
    · show (if i < P.kNumSwitches then bankATime (inp.pressed i) (u.press_time_ i)
        else u.press_time_ i) = -1
      rw [if_pos hi, hp, hf]
      rfl
    · exact hf
  · rw [e]; exact hq

theorem run_frozen (P : Params) (i : Nat) (hi : i < P.kNumSwitches) (hold : List Inputs)
    (hp : ∀ inp ∈ hold, inp.pressed i = true) (u : Ui) (hf : u.press_time_ i = -1) :
    (run P hold u).press_time_ i = -1 := by
  induction hold generalizing u with
  | nil => exact hf
  | cons inp rest ih =>
    exact ih (fun x hx => hp x (List.mem_cons_of_mem _ hx)) (Poll P inp u)
      (Poll_frozen P i hi inp (hp inp (List.mem_cons_self _ _)) u hf)

theorem run_take_succ (P : Params) (hold : List Inputs) (n : Nat) (hn : n < hold.length)
    (u : Ui) :
    ∃ x, x ∈ hold ∧ run P (hold.take (n + 1)) u = Poll P x (run P (hold.take n) u) := by
  refine ⟨hold[n], List.getElem_mem _, ?_⟩
  rw [List.take_succ, run_append, List.getElem?_eq_getElem hn]
  rfl

/-- A frozen Bank A counter stays frozen across a tick on which its switch is
pressed or which starts outside the Ouroboros modes (Bank A is then skipped). -/
theorem Poll_keep_frozen (P : Params) (j : Nat) (hj : j < P.kNumSwitches) (inp : Inputs)
    (u : Ui) (hf : u.press_time_ j = -1)
    (h : inp.pressed j = true ∨ isOuroboros u.state.multimode = false) :
    (Poll P inp u).press_time_ j = -1 := by
  obtain ⟨v, e, v1, v2, v3, v4⟩ := Poll_phases P inp u
  rcases bankB_loop_freeze P inp.pressed j hj P.kNumSwitches v with hq | hq
  · rw [e, hq.2, v4]
    split_ifs with hm
    · have hp : inp.pressed j = true := by
        rcases h with h | h
        · exact h
        · rw [hm] at h; cases h
      show (if j < P.kNumSwitches then bankATime (inp.pressed j) (u.press_time_ j)
        else u.press_time_ j) = -1
      rw [if_pos hj, hp, hf]
      rfl
    · exact hf
  · rw [e]; exact hq

/-- A tick on which no toggle is called leaves the persisted mode unchanged. -/
theorem Poll_nofire_mode (P : Params) (inp : Inputs) (u : Ui)
    (hf : ∀ j, j < P.kNumSwitches →
      ¬ bankBFires P (inp.pressed j) (u.press_time_multimode_toggle_ j)) :
    (Poll P inp u).state.multimode = u.state.multimode := by
  obtain ⟨v, e, v1, v2, _, _⟩ := Poll_phases P inp u
  rw [e, bankB_loop_nofire P inp.pressed P.kNumSwitches v (by rw [v1]; exact hf)]
  exact v2

theorem run_take_succ_get (P : Params) (hold : List Inputs) (n : Nat)
    (hn : n < hold.length) (u : Ui) :
    ∃ x, hold[n]? = some x ∧ x ∈ hold ∧
      run P (hold.take (n + 1)) u = Poll P x (run P (hold.take n) u) := by
  refine ⟨hold[n], List.getElem?_eq_getElem hn, List.getElem_mem _, ?_⟩
  rw [List.take_succ, run_append, List.getElem?_eq_getElem hn]
  rfl

/-- C6 (amended): a continuous hold of switch `i` from rest that lasts at least
`threshold + 1` ticks calls `MultiModeToggle(i)` exactly once, on tick
`threshold + 1`. If the persisted mode changes on that tick, every Bank A counter
is -1 right after it, and from then until `i` is released: the counter of `i` is
-1 after every tick; the counter of any switch `j` is -1 after tick `m` whenever,
on each tick in between, `j` was pressed or the tick started outside the
Ouroboros modes (where Bank A is skipped); and when `i` is the only switch pressed
and its target mode is not an Ouroboros mode, every Bank A counter is -1 after
every tick. -/
theorem very_long_press_freezes (P : Params) (i : Nat) (hi : i < P.kNumSwitches) (n : Nat)
    (hn : P.kLongPressDurationForMultiModeToggle = (n : Int))
    (hT32 : P.kLongPressDurationForMultiModeToggle < 2147483647)
    (u : Ui) (h0 : u.press_time_multimode_toggle_ i = 0)
    (hold : List Inputs) (hp : ∀ inp ∈ hold, inp.pressed i = true)
    (hlen : n + 1 ≤ hold.length) :
    (run P hold u).multimode_toggle_calls i = u.multimode_toggle_calls i + 1 ∧
    (run P (hold.take n) u).multimode_toggle_calls i = u.multimode_toggle_calls i ∧
    (run P (hold.take (n + 1)) u).multimode_toggle_calls i = u.multimode_toggle_calls i + 1 ∧
    ((run P (hold.take (n + 1)) u).state.multimode ≠ (run P (hold.take n) u).state.multimode →
      (∀ j, j < P.kNumSwitches → (run P (hold.take (n + 1)) u).press_time_ j = -1) ∧
      (∀ m, n + 1 ≤ m → m ≤ hold.length → (run P (hold.take m) u).press_time_ i = -1) ∧
      (∀ m, n + 1 ≤ m → m ≤ hold.length → ∀ j, j < P.kNumSwitches →
        (∀ t, n + 1 ≤ t → t < m → ∀ x, hold[t]? = some x →
          x.pressed j = true ∨
            isOuroboros (run P (hold.take t) u).state.multimode = false) →
        (run P (hold.take m) u).press_time_ j = -1) ∧
      ((∀ inp ∈ hold, OnlyPressed i inp) → isOuroboros (multimodes_ i) = false →
        ∀ m, n + 1 ≤ m → m ≤ hold.length → ∀ j, j < P.kNumSwitches →
          (run P (hold.take m) u).press_time_ j = -1)) := by
  have hT0 : 0 ≤ P.kLongPressDurationForMultiModeToggle := by omega
  have hcalls : ∀ l : List Inputs, (∀ inp ∈ l, inp.pressed i = true) →
      (run P l u).multimode_toggle_calls i = u.multimode_toggle_calls i +
        (if n + 1 ≤ l.length then 1 else 0) := by
    intro l hl
    obtain ⟨_, a2⟩ := run_hold_bankB P i hi hT0 hT32 l hl u 0 (by simp [h0, hT0])
    rw [a2]
    simp only [Nat.zero_add, hn]
    push_cast
    split_ifs <;> omega
  have htime : ∀ t, t ≤ hold.length →
      (run P (hold.take t) u).press_time_multimode_toggle_ i =
        (if t ≤ n then (t : Int) else -1) := by
    intro t ht
    obtain ⟨a1, _⟩ := run_hold_bankB P i hi hT0 hT32 (hold.take t)
      (fun x hx => hp x (List.mem_of_mem_take hx)) u 0 (by simp [h0, hT0])
    rw [a1, List.length_take, Nat.min_eq_left ht]
    simp only [Nat.zero_add, hn]
    split_ifs <;> omega
  have hfreeze : (run P (hold.take (n + 1)) u).state.multimode ≠
      (run P (hold.take n) u).state.multimode →
      ∀ j, j < P.kNumSwitches → (run P (hold.take (n + 1)) u).press_time_ j = -1 := by
    obtain ⟨x, _, hx⟩ := run_take_succ P hold n (by omega) u
    rw [hx]
    exact Poll_mode_change P x _
  have hkeep : (run P (hold.take (n + 1)) u).state.multimode ≠
      (run P (hold.take n) u).state.multimode →
      ∀ m, n + 1 ≤ m → m ≤ hold.length → ∀ j, j < P.kNumSwitches →
        (∀ t, n + 1 ≤ t → t < m → ∀ x, hold[t]? = some x →
          x.pressed j = true ∨
            isOuroboros (run P (hold.take t) u).state.multimode = false) →
        (run P (hold.take m) u).press_time_ j = -1 := by
    intro hne m hm1
    induction m, hm1 using Nat.le_induction with
    | base => intro _ j hj _; exact hfreeze hne j hj
    | succ m hm1 ih =>
      intro hm2 j hj hcond
      obtain ⟨x, hx1, _, hx3⟩ := run_take_succ_get P hold m (by omega) u
      rw [hx3]
      exact Poll_keep_frozen P j hj x _
        (ih (by omega) j hj (fun t ht1 ht2 y hy => hcond t ht1 (by omega) y hy))
        (hcond m hm1 (Nat.lt_succ_self m) x hx1)
  refine ⟨?_, ?_, ?_, fun hne => ⟨hfreeze hne, ?_, hkeep hne, ?_⟩⟩
  · rw [hcalls hold hp, if_pos hlen]
  · rw [hcalls _ (fun x hx => hp x (List.mem_of_mem_take hx)), List.length_take]
    rw [if_neg (by omega)]
    rfl
  · rw [hcalls _ (fun x hx => hp x (List.mem_of_mem_take hx)), List.length_take]
    rw [if_pos (by omega)]
  · intro m hm1 hm2
    refine hkeep hne m hm1 hm2 i hi (fun t _ _ x hx => Or.inl (hp x ?_))
    obtain ⟨h, rfl⟩ := List.getElem?_eq_some.mp hx
    exact List.getElem_mem _
  · intro honly htarget
    have hmodeT : ∀ t, n + 1 ≤ t → t ≤ hold.length →
        (run P (hold.take t) u).state.multimode = multimodes_ i := by
      intro t ht1
      induction t, ht1 using Nat.le_induction with
      | base =>
        intro _
        obtain ⟨x, hx1, hx2⟩ := run_take_succ P hold n (by omega) u
        rw [hx2]
        refine (Poll_fire_only P i hi x (honly x hx1) _ ?_).1
        rw [htime n (by omega), if_pos (le_refl _)]
        simp only [bankBFires, bankBCount, incr32, true_and]
        split_ifs <;> omega
      | succ t ht1 ih =>
        intro ht2
        obtain ⟨x, hx1, hx2⟩ := run_take_succ P hold t (by omega) u
        rw [hx2, Poll_nofire_mode P x _ ?_]
        · exact ih (by omega)
        · intro k _
          by_cases hk : k = i
          · subst hk
            rw [htime t (by omega), if_neg (by omega)]
            simp only [bankBFires, bankBCount]
            simp only [ne_eq, not_true_eq_false, if_false]
            omega
          · simp [bankBFires, honly x hx1 k, hk]
    intro m hm1 hm2 j hj
    exact hkeep hne m hm1 hm2 j hj
      (fun t ht1 ht2 _ _ => Or.inr (by rw [hmodeT t ht1 (by omega)]; exact htarget))

/-- Switch `i` held alone from rest for `threshold + 1` ticks in an Ouroboros
mode that is already the target mode of `i`: the toggle is called, and the Bank A
counter of `i` is not frozen but has counted every tick. -/
theorem hold_fire_same_mode (P : Params) (i : Nat) (hi : i < P.kNumSwitches) (n : Nat)
    (hn : P.kLongPressDurationForMultiModeToggle = (n : Int))
    (hT32 : P.kLongPressDurationForMultiModeToggle < 2147483647)
    (x : Inputs) (hx : OnlyPressed i x) (u : Ui)
    (hm : isOuroboros u.state.multimode = true) (he : u.state.multimode = multimodes_ i)
    (hpt : u.press_time_ i = 0) (hptm : u.press_time_multimode_toggle_ i = 0) :
    (run P (List.replicate (n + 1) x) u).multimode_toggle_calls i =
      u.multimode_toggle_calls i + 1 ∧
    (run P (List.replicate (n + 1) x) u).press_time_ i = ((n + 1 : Nat) : Int) := by
  obtain ⟨a1, a2, a3, _, a5, _, _⟩ := run_hold P i hi (List.replicate n x)
    (fun inp h => by rw [List.eq_of_mem_replicate h]; exact hx) u hm 0
    (by simpa using hpt) (by simpa using hptm)
    (by rw [List.length_replicate, hn, Nat.zero_add]) (by rw [List.length_replicate]; omega)
  simp only [List.length_replicate, Nat.zero_add] at a2 a3
  have hf : bankBFires P true
      ((run P (List.replicate n x) u).press_time_multimode_toggle_ i) := by
    rw [a3]
    simp only [bankBFires, bankBCount, incr32, true_and]
    split_ifs <;> omega
  obtain ⟨_, b2, _, b4, _⟩ := Poll_fire_only P i hi x hx (run P (List.replicate n x) u) hf
  rw [List.replicate_succ', run_append]
  simp only [run]
  refine ⟨by rw [b2, a5], ?_⟩
  rw [b4 (by rw [a1]; exact hm) (by rw [a1]; exact he), a2]
  simp only [bankATime, incr32, if_true]
  push_cast
  split_ifs <;> omega

/-- Switch `i` held alone from rest for `threshold + 2` ticks in an Ouroboros
mode, the target mode of `i` being the other Ouroboros mode: the toggle is
called and changes the mode, and one tick later the Bank A counter of a released
switch `j` is back at 0 while `i` is still held. -/
theorem hold_fire_mode_change (P : Params) (i : Nat) (hi : i < P.kNumSwitches) (n : Nat)
    (hn : P.kLongPressDurationForMultiModeToggle = (n : Int))
    (hT32 : P.kLongPressDurationForMultiModeToggle < 2147483647)
    (x : Inputs) (hx : OnlyPressed i x) (u : Ui)
    (hm : isOuroboros u.state.multimode = true) (ho : isOuroboros (multimodes_ i) = true)
    (hpt : u.press_time_ i = 0) (hptm : u.press_time_multimode_toggle_ i = 0)
    (j : Nat) (hj : j < P.kNumSwitches) (hji : j ≠ i) :
    (run P (List.replicate (n + 2) x) u).multimode_toggle_calls i =
      u.multimode_toggle_calls i + 1 ∧
    (run P (List.replicate (n + 2) x) u).state.multimode = multimodes_ i ∧
    (run P (List.replicate (n + 2) x) u).press_time_ j = 0 := by
  obtain ⟨a1, a2, a3, _, a5, _, _⟩ := run_hold P i hi (List.replicate n x)
    (fun inp h => by rw [List.eq_of_mem_replicate h]; exact hx) u hm 0
    (by simpa using hpt) (by simpa using hptm)
    (by rw [List.length_replicate, hn, Nat.zero_add]) (by rw [List.length_replicate]; omega)
  simp only [List.length_replicate, Nat.zero_add] at a2 a3
  have hf : bankBFires P true
      ((run P (List.replicate n x) u).press_time_multimode_toggle_ i) := by
    rw [a3]
    simp only [bankBFires, bankBCount, incr32, true_and]
    split_ifs <;> omega
  obtain ⟨b1, b2, b3, _, _⟩ := Poll_fire_only P i hi x hx (run P (List.replicate n x) u) hf
  have hnf : ∀ k, k < P.kNumSwitches → ¬ bankBFires P (x.pressed k)
      ((Poll P x (run P (List.replicate n x) u)).press_time_multimode_toggle_ k) := by
    intro k _
    by_cases hk : k = i
    · subst hk
      rw [b3]
      simp only [bankBFires, bankBCount]
      simp only [ne_eq, not_true_eq_false, if_false]
      omega
    · simp [bankBFires, hx k, hk]
  obtain ⟨c1, _, c3, _, _, _, c7⟩ := Poll_ouroboros_nofire P x
    (Poll P x (run P (List.replicate n x) u)) (by rw [b1]; exact ho) hnf
  rw [List.replicate_succ', List.replicate_succ', run_append, run_append]
  simp only [run]
  refine ⟨by rw [c7, b2, a5], by rw [c3, b1], ?_⟩
  rw [c1]
  simp [hj, hx j, hji, bankATime]

/-- C6, counterexamples on the six-switch device (threshold 5000), from rest in
Ouroboros mode: (1) a hold of switch 0 lasting exactly 5000 ticks, then released,
never calls the toggle; (2) a hold of switch 4, whose target mode is the current
mode, calls the toggle on tick 5001 and leaves `press_time_[4]` at 5001, not -1;
(3) a hold of switch 5 changes the mode on tick 5001, and after tick 5002, switch 5
still held, `press_time_[0]` is 0, not -1. -/
theorem very_long_press_not_frozen :
    (run demoParams (pressFor 0 5000)
      (demoUi MULTI_MODE_OUROBOROS 0)).multimode_toggle_calls 0 = 0 ∧
    ((run demoParams (List.replicate 5001 (pressOnly 4))
        (demoUi MULTI_MODE_OUROBOROS 0)).multimode_toggle_calls 4 = 1 ∧
      (run demoParams (List.replicate 5001 (pressOnly 4))
        (demoUi MULTI_MODE_OUROBOROS 0)).press_time_ 4 = 5001) ∧
    ((run demoParams (List.replicate 5002 (pressOnly 5))
        (demoUi MULTI_MODE_OUROBOROS 0)).multimode_toggle_calls 5 = 1 ∧
      (run demoParams (List.replicate 5002 (pressOnly 5))
        (demoUi MULTI_MODE_OUROBOROS 0)).state.multimode = MULTI_MODE_OUROBOROS_ALTERNATE ∧
      (run demoParams (List.replicate 5002 (pressOnly 5))
        (demoUi MULTI_MODE_OUROBOROS 0)).press_time_ 0 = 0) := by
  have h1 := run_isPress demoParams 0 (by decide) 5000 (pressFor 0 5000)
    (isPress_pressFor 0 5000) (demoUi MULTI_MODE_OUROBOROS 0) rfl rfl rfl
    (by decide) (by decide)
  have h2 := hold_fire_same_mode demoParams 4 (by decide) 5000 rfl (by decide)
    (pressOnly 4) (fun _ => rfl) (demoUi MULTI_MODE_OUROBOROS 0) rfl rfl rfl rfl
  have h3 := hold_fire_mode_change demoParams 5 (by decide) 5000 rfl (by decide)
    (pressOnly 5) (fun _ => rfl) (demoUi MULTI_MODE_OUROBOROS 0) rfl rfl rfl rfl
    0 (by decide) (by decide)
  rw [show (5000 + 1 : Nat) = 5001 from rfl] at h2
  rw [show (5000 + 2 : Nat) = 5002 from rfl] at h3
  refine ⟨?_, ⟨h2.1.trans rfl, h2.2.trans rfl⟩, ⟨h3.1.trans rfl, h3.2.1.trans rfl, h3.2.2⟩⟩
  rw [h1.2.2.2.2.1]
  rfl

/-- Switch `i` held alone from rest in an Ouroboros mode: the mode is unchanged
after `threshold` ticks and is the target mode of `i` after `threshold + 1`. -/
theorem hold_fire_target (P : Params) (i : Nat) (hi : i < P.kNumSwitches) (n : Nat)
    (hn : P.kLongPressDurationForMultiModeToggle = (n : Int))
    (hT32 : P.kLongPressDurationForMultiModeToggle < 2147483647)
    (x : Inputs) (hx : OnlyPressed i x) (u : Ui)
    (hm : isOuroboros u.state.multimode = true)
    (hpt : u.press_time_ i = 0) (hptm : u.press_time_multimode_toggle_ i = 0) :
    (run P (List.replicate n x) u).state.multimode = u.state.multimode ∧
    (run P (List.replicate (n + 1) x) u).state.multimode = multimodes_ i := by
  obtain ⟨a1, _, a3, _⟩ := run_hold P i hi (List.replicate n x)
    (fun inp h => by rw [List.eq_of_mem_replicate h]; exact hx) u hm 0
    (by simpa using hpt) (by simpa using hptm)
    (by rw [List.length_replicate, hn, Nat.zero_add]) (by rw [List.length_replicate]; omega)
  simp only [List.length_replicate, Nat.zero_add] at a3
  have hf : bankBFires P true
      ((run P (List.replicate n x) u).press_time_multimode_toggle_ i) := by
    rw [a3]
    simp only [bankBFires, bankBCount, incr32, true_and]
    split_ifs <;> omega
  refine ⟨a1, ?_⟩
  rw [List.replicate_succ', run_append]
  exact (Poll_fire_only P i hi x hx (run P (List.replicate n x) u) hf).1

/-- C6 (amended), instance: switch 2 of the six-switch device (target mode: the
slow-LFO variant) held alone for 5003 ticks from rest in Ouroboros mode; the
toggle has been called once, and after tick 5003 the Bank A counter of switch 0 is
still frozen. -/
theorem very_long_press_freezes_witness :
    (run demoParams (List.replicate 5003 (pressOnly 2))
      (demoUi MULTI_MODE_OUROBOROS 0)).multimode_toggle_calls 2 = 1 ∧
    (run demoParams ((List.replicate 5003 (pressOnly 2)).take 5003)
      (demoUi MULTI_MODE_OUROBOROS 0)).press_time_ 0 = -1 := by
  have h := very_long_press_freezes demoParams 2 (by decide) 5000 rfl (by decide)
    (demoUi MULTI_MODE_OUROBOROS 0) rfl (List.replicate 5003 (pressOnly 2))
    (fun inp h => by rw [List.eq_of_mem_replicate h]; rfl)
    (by rw [List.length_replicate]; omega)
  have ht := hold_fire_target demoParams 2 (by decide) 5000 rfl (by decide)
    (pressOnly 2) (fun _ => rfl) (demoUi MULTI_MODE_OUROBOROS 0) rfl rfl rfl
  have e0 : (List.replicate 5003 (pressOnly 2)).take 5000 =
      List.replicate 5000 (pressOnly 2) := by
    rw [List.take_replicate]; rfl
  have e1 : (List.replicate 5003 (pressOnly 2)).take (5000 + 1) =
      List.replicate (5000 + 1) (pressOnly 2) := by
    rw [List.take_replicate]; rfl
  have hne : (run demoParams ((List.replicate 5003 (pressOnly 2)).take (5000 + 1))
        (demoUi MULTI_MODE_OUROBOROS 0)).state.multimode ≠
      (run demoParams ((List.replicate 5003 (pressOnly 2)).take 5000)
        (demoUi MULTI_MODE_OUROBOROS 0)).state.multimode := by
    rw [e0, e1, ht.1, ht.2]
    decide
  refine ⟨h.1, ?_⟩
  exact (h.2.2.2 hne).2.2.2 (fun inp hin => by
      rw [List.eq_of_mem_replicate hin]; intro j; rfl) rfl
    5003 (by omega) (by rw [List.length_replicate]) 0 (by decide)

/-! ## C7 and C8 -/

/-- C7: for every index `i` of the table and every state whose persisted mode
differs from `multimodes_[i]`, `MultiModeToggle(i)` calls `SuspendSwitches` once,
sets every Bank A counter to -1, sets the persisted mode to `multimodes_[i]`,
calls `SaveState` once and leaves every configuration byte unchanged; the table
maps 0 and 1 to Stages, 2 to the slow-LFO variant, 3 to the six-stage envelope
generator, 4 to Ouroboros and 5 to Ouroboros-alternate. -/
theorem toggle_changes_mode (P : Params) (i : Nat) (_hi : i ≤ 5) (u : Ui)
    (hne : u.state.multimode ≠ multimodes_ i) :
    let w := MultiModeToggle P i u
    w.suspend_switches_calls = u.suspend_switches_calls + 1 ∧
    (∀ j, j < P.kNumSwitches → w.press_time_ j = -1) ∧
    w.state.multimode = multimodes_ i ∧
    w.save_state_calls = u.save_state_calls + 1 ∧
    w.state.segment_configuration = u.state.segment_configuration ∧
    (multimodes_ 0 = MULTI_MODE_STAGES ∧ multimodes_ 1 = MULTI_MODE_STAGES ∧
      multimodes_ 2 = MULTI_MODE_STAGES_SLOW_LFO ∧ multimodes_ 3 = MULTI_MODE_SIX_EG ∧
      multimodes_ 4 = MULTI_MODE_OUROBOROS ∧ multimodes_ 5 = MULTI_MODE_OUROBOROS_ALTERNATE) := by
  simp only [MultiModeToggle_eq, hne, ne_eq, not_false_eq_true, if_true]
  refine ⟨trivial, fun j hj => ?_, trivial, trivial, trivial, rfl, rfl, rfl, rfl, rfl, rfl⟩
  simp [fill_apply, hj]

/-- C7, instance: `MultiModeToggle(4)` in Stages mode on the six-switch device. -/
theorem toggle_changes_mode_witness :
    (MultiModeToggle demoParams 4 (demoUi MULTI_MODE_STAGES 0)).state.multimode =
      MULTI_MODE_OUROBOROS :=
  (toggle_changes_mode demoParams 4 (by decide) (demoUi MULTI_MODE_STAGES 0)
    (by decide)).2.2.1

/-- C8: for every index `i` of the table and every state, `MultiModeToggle(i)`
sets the overlay countdown to 1000 and the overlay channel to `i`; and when the
persisted mode already equals `multimodes_[i]` nothing else changes (the count of
calls of `MultiModeToggle(i)` apart): mode, configuration bytes, both timer
banks, and the numbers of `SuspendSwitches` and `SaveState` calls are the same. -/
theorem toggle_starts_overlay (P : Params) (i : Nat) (_hi : i ≤ 5) (u : Ui) :
    let w := MultiModeToggle P i u
    (w.displaying_multimode_toggle_ = 1000 ∧ w.displaying_multimode_toggle_pressed_ = i) ∧
    (u.state.multimode = multimodes_ i →
      w = { u with
        displaying_multimode_toggle_ := 1000
        displaying_multimode_toggle_pressed_ := i
        multimode_toggle_calls :=
          Function.update u.multimode_toggle_calls i (u.multimode_toggle_calls i + 1) } ∧
      w.state = u.state ∧ w.press_time_ = u.press_time_ ∧
      w.suspend_switches_calls = u.suspend_switches_calls ∧
      w.save_state_calls = u.save_state_calls) := by
  simp only [MultiModeToggle_eq]
  refine ⟨⟨trivial, trivial⟩, fun he => ?_⟩
  simp [← he]

/-- C8, instance: `MultiModeToggle(1)` in Stages mode, the target of switch 1. -/
theorem toggle_starts_overlay_witness :
    (MultiModeToggle demoParams 1 (demoUi MULTI_MODE_STAGES 0)).displaying_multimode_toggle_ =
      1000 ∧
    (MultiModeToggle demoParams 1 (demoUi MULTI_MODE_STAGES 0)).press_time_ =
      (demoUi MULTI_MODE_STAGES 0).press_time_ :=
  ⟨(toggle_starts_overlay demoParams 1 (by decide) (demoUi MULTI_MODE_STAGES 0)).1.1,
    ((toggle_starts_overlay demoParams 1 (by decide) (demoUi MULTI_MODE_STAGES 0)).2 rfl).2.2.1⟩

/-! ## C9 -/

/-- The loop of the overlay branch lights the indicator LED of the overlay
channel and turns the other indicator LEDs off. -/
theorem overlay_loop (n : Nat) (u : Ui) :
    forLoop (fun i u =>
      setUi i (if u.displaying_multimode_toggle_pressed_ = i then LED_COLOR_YELLOW
        else LED_COLOR_OFF) u) n u =
      { u with leds_ := { u.leds_ with
          ui := fun j =>
            if j < n then
              (if u.displaying_multimode_toggle_pressed_ = j then LED_COLOR_YELLOW
                else LED_COLOR_OFF)
            else u.leds_.ui j } } := by
  induction n with
  | zero => simp [forLoop]
  | succ n ih =>
    rw [forLoop_succ, ih]
    simp only [setUi]
    congr 2
    funext j
    by_cases h : j = n
    · subst h; simp
    · simp [Function.update_noteq h, lt_succ_of_ne h]

/-- The decay of the slider counters leaves the frame and the overlay alone. -/
theorem updateSliderCounters_frame (P : Params) (u : Ui) :
    (updateSliderCounters P u).leds_ = u.leds_ ∧
    (updateSliderCounters P u).displaying_multimode_toggle_ = u.displaying_multimode_toggle_ := by
  have h := forLoop_preserve (fun u : Ui => (u.leds_, u.displaying_multimode_toggle_))
    (fun i u =>
      if u.slider_led_counter_ i ≠ 0 then
        { u with
          slider_led_counter_ :=
            Function.update u.slider_led_counter_ i (u.slider_led_counter_ i - 1) }
      else u)
    (fun i s => by dsimp only; split_ifs <;> rfl) P.kNumChannels u
  simp only [Prod.mk.injEq] at h
  exact h

theorem renderMode_countdown (P : Params) (chain : Chain) (m : MultiMode) (u : Ui) :
    (renderMode P chain m u).displaying_multimode_toggle_ = u.displaying_multimode_toggle_ := by
  unfold renderMode renderStageFamily renderSixEG renderFallback
  split_ifs
  · exact forLoop_preserve (fun u : Ui => u.displaying_multimode_toggle_) _
      (fun i s => by simp [renderStageChannel, setUi, setSlider]) _ _
  · exact forLoop_preserve (fun u : Ui => u.displaying_multimode_toggle_) _
      (fun i s => by simp [setUi, setSlider]) _ _
  · exact forLoop_preserve (fun u : Ui => u.displaying_multimode_toggle_) _
      (fun i s => by simp [setUi, setSlider]) _ _

/-- A render pass while the overlay is active. -/
theorem UpdateLEDs_overlay (P : Params) (chain : Chain) (u : Ui)
    (hmode : u.mode_ ≠ UI_MODE_FACTORY_TEST) (hdisc : chain.discovering_neighbors = false)
    (hpos : u.displaying_multimode_toggle_ > 0) :
    (UpdateLEDs P chain u).displaying_multimode_toggle_ = u.displaying_multimode_toggle_ - 1 ∧
    (∀ j, (UpdateLEDs P chain u).leds_.ui j =
      if j < P.kNumChannels ∧ u.displaying_multimode_toggle_pressed_ = j then LED_COLOR_YELLOW
      else LED_COLOR_OFF) := by
  obtain ⟨h1, h2⟩ := updateSliderCounters_frame P
    (renderOverlay P { u with leds_ := Leds.Clear })
  simp only [UpdateLEDs, hmode, hdisc, hpos, if_true, if_false, Bool.false_eq_true]
  rw [h1, h2]
  simp only [renderOverlay, overlay_loop, Leds.Clear, true_and]
  intro j
  split_ifs <;> first | rfl | tauto

/-- A render pass once the overlay has expired. -/
theorem UpdateLEDs_expired (P : Params) (chain : Chain) (u : Ui)
    (hmode : u.mode_ ≠ UI_MODE_FACTORY_TEST) (hdisc : chain.discovering_neighbors = false)
    (hzero : u.displaying_multimode_toggle_ = 0) :
    (UpdateLEDs P chain u).displaying_multimode_toggle_ = 0 ∧
    (UpdateLEDs P chain u).leds_ =
      (renderMode P chain u.state.multimode { u with leds_ := Leds.Clear }).leds_ := by
  obtain ⟨h1, h2⟩ := updateSliderCounters_frame P
    (renderMode P chain u.state.multimode { u with leds_ := Leds.Clear })
  have hnp : ¬ (u.displaying_multimode_toggle_ > 0) := by omega
  simp only [UpdateLEDs, hmode, hdisc, hnp, if_false, Bool.false_eq_true]
  rw [h1, h2, renderMode_countdown]
  exact ⟨hzero, rfl⟩

/-- After a tick the frame and `mode_` are those left by its render pass; if no
toggle was called during the tick, so is the overlay state. -/
theorem Poll_render (P : Params) (inp : Inputs) (u : Ui) :
    (Poll P inp u).leds_ = (UpdateLEDs P inp.chain (Tick u)).leds_ ∧
    (Poll P inp u).mode_ = u.mode_ ∧
    ((Poll P inp u).multimode_toggle_calls = u.multimode_toggle_calls →
      (Poll P inp u).displaying_multimode_toggle_ =
        (UpdateLEDs P inp.chain (Tick u)).displaying_multimode_toggle_ ∧
      (Poll P inp u).displaying_multimode_toggle_pressed_ =
        u.displaying_multimode_toggle_pressed_) := by
  obtain ⟨h1, h2, h3, h4, h5, h6, h7⟩ := render_fields P inp.chain u
  have hc := UpdateLEDs_core P inp.chain (Tick u)
  simp only [core, Prod.mk.injEq] at hc
  have hpr : (UpdateLEDs P inp.chain (Tick u)).displaying_multimode_toggle_pressed_ =
      u.displaying_multimode_toggle_pressed_ := hc.2.2.2.2.2.2.2.2.2.2
  obtain ⟨b1, b2⟩ := Poll_bankB P inp u
  refine ⟨?_, ?_, ?_⟩
  · simp only [Poll]
    rw [(bankB_loop_frame P inp.pressed P.kNumSwitches _).2.2.2.2.2.2.1]
    split_ifs <;> simp [bankA_loop]
  · simp only [Poll]
    rw [(bankB_loop_frame P inp.pressed P.kNumSwitches _).2.2.2.2.2.1]
    split_ifs <;> simp [bankA_loop, h7]
  · intro hq
    have hnf : ∀ j, j < P.kNumSwitches →
        ¬ bankBFires P (inp.pressed j) (u.press_time_multimode_toggle_ j) := by
      intro j hj hf
      have := congrFun (b2.symm.trans hq) j
      simp [hj, hf] at this
    simp only [Poll]
    rw [bankB_loop_nofire]
    · split_ifs <;> simp [bankA_loop, hpr]
    · intro j hj
      have : ∀ v : Ui, v.press_time_multimode_toggle_ = u.press_time_multimode_toggle_ →
          ¬ bankBFires P (inp.pressed j) (v.press_time_multimode_toggle_ j) := by
        intro v hv; rw [hv]; exact hnf j hj
      apply this
      split_ifs <;> simp [bankA_loop, h2]

/-- C9: overlay countdown. From a state with countdown 1000 and overlay channel
`p`, not in factory-test mode, over 1001 ticks (`ins`, then `x`) on which the chain
is not discovering neighbours and no toggle is called: after the `m`-th render
pass, `1 ≤ m ≤ 1000`, the countdown is `1000 - m` and indicator LED `p` is yellow
and every other indicator LED off; after 1000 passes the countdown is 0, and the
1001st pass leaves it at 0 and renders the mode-dependent branch. -/
theorem overlay_countdown (P : Params) (p : Nat) (ins : List Inputs) (x : Inputs) (u : Ui)
    (hlen : ins.length = 1000) (hmode : u.mode_ ≠ UI_MODE_FACTORY_TEST)
    (hdisc : ∀ inp ∈ ins ++ [x], inp.chain.discovering_neighbors = false)
    (hstart : u.displaying_multimode_toggle_ = 1000)
    (hp : u.displaying_multimode_toggle_pressed_ = p)
    (hquiet : ∀ m, m ≤ 1001 →
      (run P ((ins ++ [x]).take m) u).multimode_toggle_calls = u.multimode_toggle_calls) :
    (∀ m, 1 ≤ m → m ≤ 1000 →
      (run P (ins.take m) u).displaying_multimode_toggle_ = 1000 - (m : Int) ∧
      ∀ j, (run P (ins.take m) u).leds_.ui j =
        if j < P.kNumChannels ∧ p = j then LED_COLOR_YELLOW else LED_COLOR_OFF) ∧
    (run P ins u).displaying_multimode_toggle_ = 0 ∧
    (Poll P x (run P ins u)).displaying_multimode_toggle_ = 0 ∧
    (Poll P x (run P ins u)).leds_ =
      (renderMode P x.chain (run P ins u).state.multimode
        { Tick (run P ins u) with leds_ := Leds.Clear }).leds_ := by
  have hq : ∀ m, m ≤ 1000 →
      (run P (ins.take m) u).multimode_toggle_calls = u.multimode_toggle_calls := by
    intro m hm
    have := hquiet m (by omega)
    rwa [List.take_append_of_le_length (by omega)] at this
  have hstep : ∀ m, m < 1000 → ∃ y, y ∈ ins ∧
      run P (ins.take (m + 1)) u = Poll P y (run P (ins.take m) u) ∧
      (Poll P y (run P (ins.take m) u)).multimode_toggle_calls =
        (run P (ins.take m) u).multimode_toggle_calls := by
    intro m hm
    obtain ⟨y, hy, e⟩ := run_take_succ P ins m (by omega) u
    exact ⟨y, hy, e, by rw [← e, hq (m + 1) (by omega), hq m (by omega)]⟩
  have key : ∀ m, m ≤ 1000 →
      (run P (ins.take m) u).displaying_multimode_toggle_ = 1000 - (m : Int) ∧
      (run P (ins.take m) u).displaying_multimode_toggle_pressed_ = p ∧
      (run P (ins.take m) u).mode_ = u.mode_ ∧
      (1 ≤ m → ∀ j, (run P (ins.take m) u).leds_.ui j =
        if j < P.kNumChannels ∧ p = j then LED_COLOR_YELLOW else LED_COLOR_OFF) := by
    intro m
    induction m with
    | zero =>
      intro _
      have e0 : run P (ins.take 0) u = u := rfl
      rw [e0]
      exact ⟨by rw [hstart]; rfl, hp, rfl, fun h => absurd h (by decide)⟩
    | succ m ih =>
      intro hm
      obtain ⟨i1, i2, i3, _⟩ := ih (by omega)
      obtain ⟨y, hy, e, hc⟩ := hstep m (by omega)
      obtain ⟨r1, r2, r3⟩ := Poll_render P y (run P (ins.take m) u)
      obtain ⟨r4, r5⟩ := r3 hc
      obtain ⟨o1, o2⟩ := UpdateLEDs_overlay P y.chain (Tick (run P (ins.take m) u))
        (by show (run P (ins.take m) u).mode_ ≠ _; rw [i3]; exact hmode)
        (hdisc y (List.mem_append_left _ hy))
        (by show (run P (ins.take m) u).displaying_multimode_toggle_ > 0; rw [i1]; omega)
      rw [e]
      refine ⟨?_, by rw [r5, i2], by rw [r2, i3], fun _ j => ?_⟩
      · rw [r4, o1]
        show (run P (ins.take m) u).displaying_multimode_toggle_ - 1 = _
        rw [i1]; push_cast; omega
      · rw [r1, o2 j]
        show (if j < P.kNumChannels ∧
          (run P (ins.take m) u).displaying_multimode_toggle_pressed_ = j then _ else _) = _
        rw [i2]
  have hall : ins.take 1000 = ins := List.take_of_length_le (by omega)
  obtain ⟨k1, _, k3, _⟩ := key 1000 (le_refl _)
  rw [hall] at k1 k3
  have hzero : (run P ins u).displaying_multimode_toggle_ = 0 := by rw [k1]; rfl
  have hlast : (Poll P x (run P ins u)).multimode_toggle_calls =
      (run P ins u).multimode_toggle_calls := by
    have h1 := hquiet 1001 (le_refl _)
    rw [List.take_of_length_le (by simp [hlen]), run_append] at h1
    have h2 := hq 1000 (le_refl _)
    rw [hall] at h2
    simp only [run] at h1
    rw [h1, h2]
  obtain ⟨r1, _, r3⟩ := Poll_render P x (run P ins u)
  obtain ⟨r4, _⟩ := r3 hlast
  obtain ⟨e1, e2⟩ := UpdateLEDs_expired P x.chain (Tick (run P ins u))
    (by show (run P ins u).mode_ ≠ _; rw [k3]; exact hmode)
    (hdisc x (List.mem_append_right _ (List.mem_singleton_self x)))
    hzero
  refine ⟨fun m h1 h2 => ⟨(key m h2).1, (key m h2).2.2.2 h1⟩, hzero, by rw [r4, e1], ?_⟩
  rw [r1, e2]
  rfl

/-- No toggle is called while no switch is pressed. -/
theorem run_none_calls (P : Params) (l : List Inputs) (hl : ∀ inp ∈ l, NonePressed inp)
    (u : Ui) : (run P l u).multimode_toggle_calls = u.multimode_toggle_calls := by
  induction l generalizing u with
  | nil => rfl
  | cons inp rest ih =>
    simp only [run]
    rw [ih (fun x hx => hl x (List.mem_cons_of_mem _ hx)), (Poll_bankB P inp u).2]
    funext j
    simp [bankBFires, hl inp (List.mem_cons_self _ _) j]

/-- C9, instance: the six-switch device in Stages mode, overlay started by
switch 2, no switch pressed for 1001 ticks: after the first pass indicator LED 2 is
yellow, and LED 0 off, and after 1000 passes the countdown is 0. -/
theorem overlay_countdown_witness :
    ((run demoParams ((List.replicate 1000 pressNone).take 1) demoOverlay).leds_.ui 2 =
        LED_COLOR_YELLOW ∧
      (run demoParams ((List.replicate 1000 pressNone).take 1) demoOverlay).leds_.ui 0 =
        LED_COLOR_OFF) ∧
    (run demoParams (List.replicate 1000 pressNone) demoOverlay).displaying_multimode_toggle_
      = 0 := by
  have h := overlay_countdown demoParams 2 (List.replicate 1000 pressNone) pressNone
    demoOverlay (List.length_replicate _ _) (by decide)
    (fun inp h => by
      rcases List.mem_append.mp h with h | h
      · rw [List.eq_of_mem_replicate h]; rfl
      · rw [List.mem_singleton.mp h]; rfl)
    rfl rfl
    (fun m _ => run_none_calls demoParams _ (fun inp h => by
      rcases List.mem_append.mp (List.mem_of_mem_take h) with h | h
      · rw [List.eq_of_mem_replicate h]; intro j; rfl
      · rw [List.mem_singleton.mp h]; intro j; rfl) demoOverlay)
  exact ⟨⟨((h.1 1 (le_refl _) (by decide)).2 2).trans rfl,
    ((h.1 1 (le_refl _) (by decide)).2 0).trans rfl⟩, h.2.1⟩

/-! ## C10 -/

/-- The value of `FadePattern` only depends on the shifted clock plus the phase, modulo 32. -/
theorem FadePattern_congr (t1 s1 p1 t2 s2 p2 : Nat)
    (h : (t1 >>> s1 + p1) % 32 = (t2 >>> s2 + p2) % 32) :
    FadePattern t1 s1 p1 = FadePattern t2 s2 p2 := by
  have h31 : ∀ x : Nat, x &&& 0x1f = x % 32 := fun x => Nat.and_pow_two_sub_one_eq_mod x 5
  have e : ∀ a p : Nat, ((a % 256 + p) % 256) &&& 0x1f = (a + p) % 32 := by
    intro a p
    rw [h31]
    omega
  simp only [FadePattern, e, h]

/-- C10: `FadePattern` is periodic in the clock with period `32 << shift`: for
every shift `s ≤ 27`, every phase and every clock value `t`, the value at clock
`(t + (32 << s)) mod 2^32` equals the value at clock `t`. -/
theorem FadePattern_periodic (s p t : Nat) (hs : s ≤ 27) :
    FadePattern ((t + (32 <<< s)) % 4294967296) s p = FadePattern t s p := by
  apply FadePattern_congr
  simp only [Nat.shiftRight_eq_div_pow, Nat.shiftLeft_eq]
  interval_cases s <;> omega

/-- C10, instance: shift 4 (period 512), phase 8, clock 4294967000, where the
clock wraps. -/
theorem FadePattern_periodic_witness :
    FadePattern ((4294967000 + (32 <<< 4)) % 4294967296) 4 8 = FadePattern 4294967000 4 8 :=
  FadePattern_periodic 4 8 4294967000 (by decide)

/-! ## C11 -/

/-- The timers and decay counters are zero after `Init`. -/
theorem Init_fields (P : Params) (settings : State) (held : Bool) (u : Ui) :
    (∀ i, i < P.kNumSwitches →
      (Init P settings held u).press_time_ i = 0 ∧
      (Init P settings held u).press_time_multimode_toggle_ i = 0) ∧
    (∀ i, i < P.kNumLEDs → (Init P settings held u).slider_led_counter_ i = 0) := by
  have hf : ∀ (a : Nat → Int) (n i : Nat), i < n → fill a n 0 i = 0 := by
    intro a n i hi; simp [fill_apply, hi]
  have hg : ∀ (a : Nat → Nat) (n i : Nat), i < n → fill a n 0 i = 0 := by
    intro a n i hi; simp [fill_apply, hi]
  cases held
  · exact ⟨fun i hi => ⟨hf _ _ _ hi, hf _ _ _ hi⟩, fun i hi => hg _ _ _ hi⟩
  · by_cases hc : settings.color_blind = 1
    · simp only [Init, SaveState, if_true, hc]
      exact ⟨fun i hi => ⟨hf _ _ _ hi, hf _ _ _ hi⟩, fun i hi => hg _ _ _ hi⟩
    · simp only [Init, SaveState, if_true, hc, if_false]
      exact ⟨fun i hi => ⟨hf _ _ _ hi, hf _ _ _ hi⟩, fun i hi => hg _ _ _ hi⟩

/-- C11: the contract of `Init`. After `Init`, every `press_time_[i]` and every
`press_time_multimode_toggle_[i]` (`i < kNumSwitches`) and every
`slider_led_counter_[i]` (`i < kNumLEDs`) is 0, `mode_` is `UI_MODE_NORMAL`, the
overlay countdown and the overlay channel are 0. If `pressed_immediate(0)` holds,
a persisted `color_blind` of 0 becomes 1, one of 1 becomes 0, and `SaveState` is
called once; otherwise `color_blind` is unchanged and `SaveState` is not called. -/
theorem Init_contract (P : Params) (settings : State) (held : Bool) (u : Ui) :
    let v := Init P settings held u
    (∀ i, i < P.kNumSwitches →
      v.press_time_ i = 0 ∧ v.press_time_multimode_toggle_ i = 0) ∧
    (∀ i, i < P.kNumLEDs → v.slider_led_counter_ i = 0) ∧
    v.mode_ = UI_MODE_NORMAL ∧
    v.displaying_multimode_toggle_ = 0 ∧
    v.displaying_multimode_toggle_pressed_ = 0 ∧
    (held = true →
      (settings.color_blind = 0 → v.state.color_blind = 1) ∧
      (settings.color_blind = 1 → v.state.color_blind = 0) ∧
      v.save_state_calls = u.save_state_calls + 1) ∧
    (held = false →
      v.state.color_blind = settings.color_blind ∧
      v.save_state_calls = u.save_state_calls) ∧
    v.state.multimode = settings.multimode ∧
    v.state.segment_configuration = settings.segment_configuration := by
  have hf : ∀ (a : Nat → Int) (n i : Nat), i < n → fill a n 0 i = 0 := by
    intro a n i hi; simp [fill_apply, hi]
  have hg : ∀ (a : Nat → Nat) (n i : Nat), i < n → fill a n 0 i = 0 := by
    intro a n i hi; simp [fill_apply, hi]
  cases held
  · simp only [Init, Bool.false_eq_true, if_false]
    refine ⟨fun i hi => ⟨hf _ _ _ hi, hf _ _ _ hi⟩, fun i hi => hg _ _ _ hi, ?_, ?_, ?_,
      ?_, ?_, ?_, ?_⟩
    all_goals first | trivial | rfl | (intro h; cases h)
  · by_cases hc : settings.color_blind = 1
    · simp only [Init, SaveState, if_true, hc]
      refine ⟨fun i hi => ⟨hf _ _ _ hi, hf _ _ _ hi⟩, fun i hi => hg _ _ _ hi, ?_, ?_, ?_,
        ?_, ?_, ?_, ?_⟩
      all_goals first | trivial | rfl | simp [hc]
    · simp only [Init, SaveState, if_true, hc, if_false]
      refine ⟨fun i hi => ⟨hf _ _ _ hi, hf _ _ _ hi⟩, fun i hi => hg _ _ _ hi, ?_, ?_, ?_,
        ?_, ?_, ?_, ?_⟩
      all_goals first | trivial | rfl | simp [hc]

/-- C11, scenario: switch 0 held at `Init` with a persisted `color_blind` of 0:
the flag is 1 after `Init` and `SaveState` has been called. -/
theorem Init_contract_witness :
    (Init demoParams (demoUi MULTI_MODE_STAGES 0).state true
      (demoUi MULTI_MODE_STAGES 0)).state.color_blind = 1 ∧
    (Init demoParams (demoUi MULTI_MODE_STAGES 0).state true
      (demoUi MULTI_MODE_STAGES 0)).save_state_calls = 1 :=
  ⟨((Init_contract demoParams (demoUi MULTI_MODE_STAGES 0).state true
      (demoUi MULTI_MODE_STAGES 0)).2.2.2.2.2.1 rfl).1 rfl,
    ((Init_contract demoParams (demoUi MULTI_MODE_STAGES 0).state true
      (demoUi MULTI_MODE_STAGES 0)).2.2.2.2.2.1 rfl).2.2⟩

/-! ## C12 -/

theorem toSizeT_natCast (x : Nat) (h : x < 4294967296) : toSizeT (x : Int) = x := by
  unfold toSizeT
  omega

/-- The chain-discovery branch in closed form, when the ping-pong period is
positive and nothing overflows `size_t`. -/
theorem renderDiscovery_eq (P : Params) (chain : Chain) (u : Ui)
    (hn : 2 ≤ chain.size * P.kNumChannels)
    (hov : 2 * (chain.size * P.kNumChannels) ≤ 4294967296)
    (hd : chain.index * P.kNumChannels < 4294967296) :
    renderDiscovery P chain u =
      (let n := chain.size * P.kNumChannels
       let c := (u.milliseconds >>> 5) % (2 * n - 2)
       let g := if c < n then c else 2 * n - 2 - c
       if chain.index * P.kNumChannels ≤ g ∧ g < (chain.index + 1) * P.kNumChannels then
         setSlider (g - chain.index * P.kNumChannels) LED_COLOR_GREEN
           (setUi (g - chain.index * P.kNumChannels) LED_COLOR_YELLOW u)
       else u) := by
  have h1 : toSizeT ((chain.size : Int) * (P.kNumChannels : Int)) =
      chain.size * P.kNumChannels := by
    rw [← Nat.cast_mul]; exact toSizeT_natCast _ (by omega)
  have h2 : toSizeT (2 * ((chain.size * P.kNumChannels : Nat) : Int) - 2) =
      2 * (chain.size * P.kNumChannels) - 2 := by
    unfold toSizeT; omega
  have h3 : toSizeT ((chain.index : Int) * (P.kNumChannels : Int)) =
      chain.index * P.kNumChannels := by
    rw [← Nat.cast_mul]; exact toSizeT_natCast _ hd
  have hc : (u.milliseconds >>> 5) % (2 * (chain.size * P.kNumChannels) - 2) <
      2 * (chain.size * P.kNumChannels) - 2 := Nat.mod_lt _ (by omega)
  have h4 : toSizeT ((2 : Int) * ((chain.size * P.kNumChannels : Nat) : Int) - (2 : Int) -
      (((u.milliseconds >>> 5) % (2 * (chain.size * P.kNumChannels) - 2) : Nat) : Int)) =
      2 * (chain.size * P.kNumChannels) - 2 -
        (u.milliseconds >>> 5) % (2 * (chain.size * P.kNumChannels) - 2) := by
    unfold toSizeT; omega
  simp only [renderDiscovery, h1, h2, h3, h4]
  generalize (u.milliseconds >>> 5) % (2 * (chain.size * P.kNumChannels) - 2) = c at hc ⊢
  have e : (chain.index + 1) * P.kNumChannels =
      chain.index * P.kNumChannels + P.kNumChannels := by ring
  rw [e]
  split_ifs <;> first | rfl | omega

/-- The frame obtained from a cleared frame by lighting LED pair `k` when
`lit` holds. -/
theorem highlight_frame (lit : Prop) [Decidable lit] (k : Nat) (v : Ui)
    (hv : v.leds_ = Leds.Clear) :
    (∀ j, (if lit then setSlider k LED_COLOR_GREEN (setUi k LED_COLOR_YELLOW v)
        else v).leds_.ui j =
      if lit ∧ j = k then LED_COLOR_YELLOW else LED_COLOR_OFF) ∧
    (∀ j, (if lit then setSlider k LED_COLOR_GREEN (setUi k LED_COLOR_YELLOW v)
        else v).leds_.slider j =
      if lit ∧ j = k then LED_COLOR_GREEN else LED_COLOR_OFF) := by
  by_cases h : lit
  · simp only [h, if_true, true_and, setSlider, setUi, hv, Leds.Clear]
    constructor <;> intro j <;> by_cases hj : j = k
    · subst hj; simp
    · simp [hj]
    · subst hj; simp
    · simp [hj]
  · simp [h, hv, Leds.Clear]

/-- The frame of a render pass during chain discovery. -/
theorem UpdateLEDs_discovery (P : Params) (chain : Chain) (u : Ui)
    (hmode : u.mode_ ≠ UI_MODE_FACTORY_TEST) (hdisc : chain.discovering_neighbors = true)
    (hn : 2 ≤ chain.size * P.kNumChannels)
    (hov : 2 * (chain.size * P.kNumChannels) ≤ 4294967296)
    (hd : chain.index * P.kNumChannels < 4294967296) :
    let n := chain.size * P.kNumChannels
    let c := (u.milliseconds >>> 5) % (2 * n - 2)
    let g := if c < n then c else 2 * n - 2 - c
    let lit := chain.index * P.kNumChannels ≤ g ∧ g < (chain.index + 1) * P.kNumChannels
    (∀ j, (UpdateLEDs P chain u).leds_.ui j =
      if lit ∧ j = g - chain.index * P.kNumChannels then LED_COLOR_YELLOW else LED_COLOR_OFF) ∧
    (∀ j, (UpdateLEDs P chain u).leds_.slider j =
      if lit ∧ j = g - chain.index * P.kNumChannels then LED_COLOR_GREEN else LED_COLOR_OFF) := by
  have e := renderDiscovery_eq P chain { u with leds_ := Leds.Clear } hn hov hd
  simp only [UpdateLEDs, hmode, hdisc, if_true, if_false, e]
  exact highlight_frame _ _ _ rfl

/-- C12: chain-discovery rendering. Outside factory test and while the chain is
discovering, for every chain size, device index, number `K` of channels per device
and clock value such that `n = size * K` is at least 2 (the period `2n - 2` is then
positive) and `2n` and `index * K` fit in `size_t`: with
`c = (ms >> 5) mod (2n - 2)` and `g = c` if `c < n`, else `2n - 2 - c`, if
`index * K ≤ g < (index + 1) * K` the frame has indicator LED `g - index * K`
yellow, slider LED `g - index * K` green and every other LED off; otherwise every
LED of the device is off. -/
theorem discovery_highlight (P : Params) (chain : Chain) (u : Ui)
    (hmode : u.mode_ ≠ UI_MODE_FACTORY_TEST) (hdisc : chain.discovering_neighbors = true)
    (hn : 2 ≤ chain.size * P.kNumChannels)
    (hov : 2 * (chain.size * P.kNumChannels) ≤ 4294967296)
    (hd : chain.index * P.kNumChannels < 4294967296) :
    let n := chain.size * P.kNumChannels
    let c := (u.milliseconds >>> 5) % (2 * n - 2)
    let g := if c < n then c else 2 * n - 2 - c
    let frame := (UpdateLEDs P chain u).leds_
    (chain.index * P.kNumChannels ≤ g ∧ g < (chain.index + 1) * P.kNumChannels →
      (∀ j, frame.ui j =
        if j = g - chain.index * P.kNumChannels then LED_COLOR_YELLOW else LED_COLOR_OFF) ∧
      (∀ j, frame.slider j =
        if j = g - chain.index * P.kNumChannels then LED_COLOR_GREEN else LED_COLOR_OFF)) ∧
    (¬ (chain.index * P.kNumChannels ≤ g ∧ g < (chain.index + 1) * P.kNumChannels) →
      (∀ j, frame.ui j = LED_COLOR_OFF) ∧ (∀ j, frame.slider j = LED_COLOR_OFF)) := by
  obtain ⟨a, b⟩ := UpdateLEDs_discovery P chain u hmode hdisc hn hov hd
  refine ⟨fun h => ⟨fun j => ?_, fun j => ?_⟩, fun h => ⟨fun j => ?_, fun j => ?_⟩⟩
  · rw [a j]; simp only [h, and_self, true_and]
  · rw [b j]; simp only [h, and_self, true_and]
  · rw [a j]; simp only [h, false_and, if_false]
  · rw [b j]; simp only [h, false_and, if_false]

/-- C12, scenario of the spec: chain of size 2, this device at index 1, four
channels per device, clock 160 ms (counter 5 after the modulo): local indicator
LED 1 is yellow, slider LED 1 is green, and indicator LED 0 is off. -/
theorem discovery_highlight_witness :
    (UpdateLEDs scenarioParams scenarioChain scenarioUi).leds_.ui 1 = LED_COLOR_YELLOW ∧
    (UpdateLEDs scenarioParams scenarioChain scenarioUi).leds_.slider 1 = LED_COLOR_GREEN ∧
    (UpdateLEDs scenarioParams scenarioChain scenarioUi).leds_.ui 0 = LED_COLOR_OFF :=
  ⟨((discovery_highlight scenarioParams scenarioChain scenarioUi (by decide) rfl
      (by decide) (by decide) (by decide)).1 (by decide)).1 1,
    ((discovery_highlight scenarioParams scenarioChain scenarioUi (by decide) rfl
      (by decide) (by decide) (by decide)).1 (by decide)).2 1,
    ((discovery_highlight scenarioParams scenarioChain scenarioUi (by decide) rfl
      (by decide) (by decide) (by decide)).1 (by decide)).1 0⟩

/-! ## C13 -/

/-- A loop whose body sets the indicator and the slider LED of its channel to
colours that do not depend on the frame. -/
theorem led_loop (U S : Nat → Ui → LedColor)
    (hU : ∀ i (u : Ui) (l : Leds), U i { u with leds_ := l } = U i u)
    (hS : ∀ i (u : Ui) (l : Leds), S i { u with leds_ := l } = S i u)
    (n : Nat) (u : Ui) :
    forLoop (fun i u => setSlider i (S i u) (setUi i (U i u) u)) n u =
      { u with leds_ :=
        { ui := fun j => if j < n then U j u else u.leds_.ui j
          slider := fun j => if j < n then S j u else u.leds_.slider j } } := by
  induction n with
  | zero => simp [forLoop]
  | succ n ih =>
    rw [forLoop_succ, ih]
    simp only [setSlider, setUi, hU, hS]
    congr 2
    · funext j
      by_cases h : j = n
      · subst h; simp
      · simp [Function.update_noteq h, lt_succ_of_ne h]
    · funext j
      by_cases h : j = n
      · subst h; simp
      · simp [Function.update_noteq h, lt_succ_of_ne h]

/-- The decay loop in closed form: every counter below `n` loses one unit,
a counter at zero staying at zero. -/
theorem slider_loop (n : Nat) (u : Ui) :
    forLoop (fun i u =>
      if u.slider_led_counter_ i ≠ 0 then
        { u with
          slider_led_counter_ :=
            Function.update u.slider_led_counter_ i (u.slider_led_counter_ i - 1) }
      else u) n u =
      { u with slider_led_counter_ := fun j =>
          if j < n then u.slider_led_counter_ j - 1 else u.slider_led_counter_ j } := by
  induction n with
  | zero => simp [forLoop]
  | succ n ih =>
    rw [forLoop_succ, ih]
    simp only [lt_irrefl, if_false]
    split_ifs with h
    · congr 1
      funext j
      by_cases hj : j = n
      · subst hj; simp
      · simp [Function.update_noteq hj, lt_succ_of_ne hj]
    · congr 1
      funext j
      by_cases hj : j = n
      · subst hj
        have : u.slider_led_counter_ j = 0 := by simpa using h
        simp [this]
      · simp [lt_succ_of_ne hj]

/-- The body of the stage-family loop sets the two LEDs of its channel to colours
that do not depend on the frame. -/
theorem renderStageChannel_eq (chain : Chain) (m : MultiMode) (i : Nat) (u : Ui) :
    renderStageChannel chain m i u =
      setSlider i (if u.slider_led_counter_ i ≠ 0 then LED_COLOR_GREEN else LED_COLOR_OFF)
        (setUi i ((renderStageChannel chain m i u).leds_.ui i) u) := by
  simp [renderStageChannel, setUi, setSlider]

theorem renderStageChannel_frame (chain : Chain) (m : MultiMode) (i : Nat) (u : Ui) (l : Leds) :
    (renderStageChannel chain m i { u with leds_ := l }).leds_.ui i =
      (renderStageChannel chain m i u).leds_.ui i := by
  simp [renderStageChannel, setUi, setSlider]

/-- The frame left by the stage-family branch. -/
theorem renderStageFamily_leds (P : Params) (chain : Chain) (m : MultiMode) (u : Ui) :
    (renderStageFamily P chain m u).leds_ =
      { ui := fun j =>
          if j < P.kNumChannels then (renderStageChannel chain m j u).leds_.ui j
          else u.leds_.ui j
        slider := fun j =>
          if j < P.kNumChannels then
            (if u.slider_led_counter_ j ≠ 0 then LED_COLOR_GREEN else LED_COLOR_OFF)
          else u.leds_.slider j } := by
  have hb : renderStageChannel chain m = fun i u =>
      setSlider i (if u.slider_led_counter_ i ≠ 0 then LED_COLOR_GREEN else LED_COLOR_OFF)
        (setUi i ((renderStageChannel chain m i u).leds_.ui i) u) := by
    funext i u; exact renderStageChannel_eq chain m i u
  unfold renderStageFamily
  conv_lhs => rw [hb]
  rw [led_loop (fun i u => (renderStageChannel chain m i u).leds_.ui i)
    (fun i u => if u.slider_led_counter_ i ≠ 0 then LED_COLOR_GREEN else LED_COLOR_OFF)
    (fun i u l => renderStageChannel_frame chain m i u l) (fun _ _ _ => rfl)]

/-- The frame left by the six-stage envelope generator branch. -/
theorem renderSixEG_leds (P : Params) (u : Ui) :
    (renderSixEG P u).leds_ =
      { ui := fun j => if j < P.kNumChannels then u.led_color_ j else u.leds_.ui j
        slider := fun j =>
          if j < P.kNumChannels then
            (if u.slider_led_counter_ j ≠ 0 then LED_COLOR_GREEN else LED_COLOR_OFF)
          else u.leds_.slider j } := by
  unfold renderSixEG
  rw [led_loop (fun i u => u.led_color_ i)
    (fun i u => if u.slider_led_counter_ i ≠ 0 then LED_COLOR_GREEN else LED_COLOR_OFF)
    (fun _ _ _ => rfl) (fun _ _ _ => rfl)]

/-- The frame left by the invalid-mode branch. -/
theorem renderFallback_leds (P : Params) (u : Ui) :
    (renderFallback P u).leds_ =
      { ui := fun j => if j < P.kNumChannels then LED_COLOR_OFF else u.leds_.ui j
        slider := fun j => if j < P.kNumChannels then LED_COLOR_OFF else u.leds_.slider j } := by
  unfold renderFallback
  rw [led_loop (fun _ _ => LED_COLOR_OFF) (fun _ _ => LED_COLOR_OFF)
    (fun _ _ _ => rfl) (fun _ _ _ => rfl)]

theorem renderMode_sliders (P : Params) (chain : Chain) (m : MultiMode) (u : Ui) :
    (renderMode P chain m u).slider_led_counter_ = u.slider_led_counter_ := by
  unfold renderMode renderStageFamily renderSixEG renderFallback
  split_ifs
  · exact forLoop_preserve (fun u : Ui => u.slider_led_counter_) _
      (fun i s => by simp [renderStageChannel, setUi, setSlider]) _ _
  · exact forLoop_preserve (fun u : Ui => u.slider_led_counter_) _
      (fun i s => by simp [setUi, setSlider]) _ _
  · exact forLoop_preserve (fun u : Ui => u.slider_led_counter_) _
      (fun i s => by simp [setUi, setSlider]) _ _

theorem renderOverlay_sliders (P : Params) (u : Ui) :
    (renderOverlay P u).slider_led_counter_ = u.slider_led_counter_ := by
  unfold renderOverlay
  rw [overlay_loop]

/-- The slider decay counters after a render pass outside factory test and chain
discovery. -/
theorem UpdateLEDs_counters (P : Params) (chain : Chain) (u : Ui)
    (hmode : u.mode_ ≠ UI_MODE_FACTORY_TEST) (hdisc : chain.discovering_neighbors = false) :
    (UpdateLEDs P chain u).slider_led_counter_ = fun j =>
      if j < P.kNumChannels then u.slider_led_counter_ j - 1 else u.slider_led_counter_ j := by
  simp only [UpdateLEDs, hmode, hdisc, if_false, Bool.false_eq_true, updateSliderCounters,
    slider_loop]
  split_ifs
  · rw [renderOverlay_sliders]
  · rw [renderMode_sliders]

/-- The slider decay counters are left alone by a render pass in factory test or
during chain discovery. -/
theorem UpdateLEDs_counters_idle (P : Params) (chain : Chain) (u : Ui)
    (h : u.mode_ = UI_MODE_FACTORY_TEST ∨ chain.discovering_neighbors = true) :
    (UpdateLEDs P chain u).slider_led_counter_ = u.slider_led_counter_ := by
  unfold UpdateLEDs
  simp only
  by_cases hm : u.mode_ = UI_MODE_FACTORY_TEST
  · simp only [hm, if_true]
    unfold renderFactoryTest
    exact forLoop_preserve (fun u : Ui => u.slider_led_counter_) _
      (fun i s => by dsimp only; split_ifs <;> rfl) _ _
  · have hd : chain.discovering_neighbors = true := h.resolve_left hm
    simp only [hm, if_false, hd, if_true]
    unfold renderDiscovery
    simp only
    split_ifs <;> rfl

/-- The frame of a render pass in a mode-dependent branch. -/
theorem UpdateLEDs_mode_leds (P : Params) (chain : Chain) (u : Ui)
    (hmode : u.mode_ ≠ UI_MODE_FACTORY_TEST) (hdisc : chain.discovering_neighbors = false)
    (hexp : ¬ u.displaying_multimode_toggle_ > 0) :
    (UpdateLEDs P chain u).leds_ =
      (renderMode P chain u.state.multimode { u with leds_ := Leds.Clear }).leds_ := by
  simp only [UpdateLEDs, hmode, hdisc, hexp, if_false, Bool.false_eq_true]
  exact (updateSliderCounters_frame P _).1

/-- C13, counterexamples on the six-channel device with every slider counter at
5: in factory test the counter of channel 0 is still 5 after the pass; during
chain discovery it is still 5 and slider LED 1 is off; in the invalid-mode branch
slider LED 0 is off. -/
theorem slider_decay_not_everywhere :
    (demoSlider MULTI_MODE_STAGES UI_MODE_FACTORY_TEST).slider_led_counter_ 0 = 5 ∧
    (UpdateLEDs demoParams demoChain
      (demoSlider MULTI_MODE_STAGES UI_MODE_FACTORY_TEST)).slider_led_counter_ 0 = 5 ∧
    (UpdateLEDs demoParams demoDiscovery
      (demoSlider MULTI_MODE_STAGES UI_MODE_NORMAL)).slider_led_counter_ 0 = 5 ∧
    (UpdateLEDs demoParams demoDiscovery
      (demoSlider MULTI_MODE_STAGES UI_MODE_NORMAL)).leds_.slider 1 = LED_COLOR_OFF ∧
    (UpdateLEDs demoParams demoChain
      (demoSlider MULTI_MODE_INVALID UI_MODE_NORMAL)).leds_.slider 0 = LED_COLOR_OFF := by
  decide

/-- C13 (amended): in a render pass that takes the stage-family or the six-stage
envelope generator branch, each slider LED `j` is green exactly when
`slider_led_counter_[j] > 0`; in every pass outside factory test and chain
discovery (overlay, stage-family, six-stage, invalid mode) each positive counter
loses exactly one and a zero counter stays zero; in factory test and during chain
discovery the counters are left unchanged; in the invalid-mode branch every slider
LED is off. -/
theorem slider_decay (P : Params) (chain : Chain) (u : Ui) :
    (u.mode_ ≠ UI_MODE_FACTORY_TEST → chain.discovering_neighbors = false →
      ¬ u.displaying_multimode_toggle_ > 0 →
      (u.state.multimode = MULTI_MODE_STAGES ∨ u.state.multimode = MULTI_MODE_STAGES_SLOW_LFO ∨
        u.state.multimode = MULTI_MODE_OUROBOROS ∨
        u.state.multimode = MULTI_MODE_OUROBOROS_ALTERNATE ∨
        u.state.multimode = MULTI_MODE_SIX_EG) →
      ∀ j, j < P.kNumChannels → (UpdateLEDs P chain u).leds_.slider j =
        if u.slider_led_counter_ j > 0 then LED_COLOR_GREEN else LED_COLOR_OFF) ∧
    (u.mode_ ≠ UI_MODE_FACTORY_TEST → chain.discovering_neighbors = false →
      ∀ j, j < P.kNumChannels →
        (u.slider_led_counter_ j > 0 →
          (UpdateLEDs P chain u).slider_led_counter_ j = u.slider_led_counter_ j - 1) ∧
        (u.slider_led_counter_ j = 0 → (UpdateLEDs P chain u).slider_led_counter_ j = 0)) ∧
    (u.mode_ = UI_MODE_FACTORY_TEST ∨ chain.discovering_neighbors = true →
      (UpdateLEDs P chain u).slider_led_counter_ = u.slider_led_counter_) ∧
    (u.mode_ ≠ UI_MODE_FACTORY_TEST → chain.discovering_neighbors = false →
      ¬ u.displaying_multimode_toggle_ > 0 → u.state.multimode = MULTI_MODE_INVALID →
      ∀ j, (UpdateLEDs P chain u).leds_.slider j = LED_COLOR_OFF) := by
  refine ⟨fun hmode hdisc hexp hm j hj => ?_, fun hmode hdisc j hj => ?_,
    UpdateLEDs_counters_idle P chain u, fun hmode hdisc hexp hm j => ?_⟩
  · rw [UpdateLEDs_mode_leds P chain u hmode hdisc hexp]
    have hpos : (u.slider_led_counter_ j > 0) = (u.slider_led_counter_ j ≠ 0) := by
      apply propext; omega
    unfold renderMode
    rcases hm with h | h | h | h | h
    all_goals
      simp only [h, true_or, or_true, if_true, reduceCtorEq, or_self, if_false,
        renderStageFamily_leds, renderSixEG_leds, hj, hpos]
  · rw [UpdateLEDs_counters P chain u hmode hdisc]
    simp only [hj, if_true]
    constructor <;> intro h <;> first | trivial | omega
  · rw [UpdateLEDs_mode_leds P chain u hmode hdisc hexp]
    unfold renderMode
    simp only [hm, reduceCtorEq, or_self, if_false, renderFallback_leds, Leds.Clear]
    split_ifs <;> rfl

/-- C13 (amended), instance: a stage-family pass on the six-channel device with
every counter at 5 lights slider LED 0 green and leaves the counter at 4. -/
theorem slider_decay_witness :
    (UpdateLEDs demoParams demoChain
      (demoSlider MULTI_MODE_STAGES UI_MODE_NORMAL)).leds_.slider 0 = LED_COLOR_GREEN ∧
    (UpdateLEDs demoParams demoChain
      (demoSlider MULTI_MODE_STAGES UI_MODE_NORMAL)).slider_led_counter_ 0 = 4 :=
  ⟨(slider_decay demoParams demoChain (demoSlider MULTI_MODE_STAGES UI_MODE_NORMAL)).1
      (by decide) rfl (by decide) (Or.inl rfl) 0 (by decide),
    ((slider_decay demoParams demoChain (demoSlider MULTI_MODE_STAGES UI_MODE_NORMAL)).2.1
      (by decide) rfl 0 (by decide)).1 (by decide)⟩

/-! ## C14 -/

/-- The configuration bytes after a tick: Bank A acts in the Ouroboros modes only,
and nothing else writes them. -/
theorem Poll_config (P : Params) (inp : Inputs) (u : Ui) :
    (Poll P inp u).state.segment_configuration =
      (if isOuroboros u.state.multimode = true then fun j =>
        if j < P.kNumSwitches then
          bankAConfig P (inp.pressed j) (u.press_time_ j) (u.state.segment_configuration j)
        else u.state.segment_configuration j
      else u.state.segment_configuration) := by
  obtain ⟨h1, _, h3, _⟩ := render_fields P inp.chain u
  simp only [Poll]
  rw [(bankB_loop_frame P inp.pressed P.kNumSwitches _).1, h3]
  split_ifs <;> simp [bankA_loop, h1, h3]

/-- One tick of a hold of switch `i` that began in an Ouroboros mode with
`press_time_[i] = 0`: after `m` ticks the counter is negative (frozen or wrapped)
or the mode is still an Ouroboros mode and the counter is at least `m`. -/
theorem Poll_cancel (P : Params) (i : Nat) (hi : i < P.kNumSwitches) (inp : Inputs)
    (hp : inp.pressed i = true) (u : Ui) (m : Nat)
    (hK : u.press_time_ i < 0 ∨
      (isOuroboros u.state.multimode = true ∧ (m : Int) ≤ u.press_time_ i)) :
    (Poll P inp u).state.segment_configuration i = u.state.segment_configuration i ∧
    ((Poll P inp u).press_time_ i < 0 ∨
      (isOuroboros (Poll P inp u).state.multimode = true ∧
        ((m + 1 : Nat) : Int) ≤ (Poll P inp u).press_time_ i)) := by
  constructor
  · rw [Poll_config]
    split_ifs
    · simp [hi, hp, bankAConfig]
    · rfl
  · obtain ⟨v, e, _, v2, _, v4⟩ := Poll_phases P inp u
    rcases bankB_loop_freeze P inp.pressed i hi P.kNumSwitches v with hq | hq
    · rw [e, hq.1, hq.2, v2, v4]
      rcases hK with h | ⟨hm, h⟩
      · left
        split_ifs
        · simp only [hi, if_true, hp, bankATime, incr32]
          split_ifs <;> omega
        · exact h
      · by_cases hx : u.press_time_ i = 2147483647
        · left
          simp [hm, hi, hp, bankATime, incr32, hx]
        · right
          refine ⟨hm, ?_⟩
          simp only [hm, if_true, hi, hp, bankATime, incr32]
          push_cast
          split_ifs <;> omega
    · left
      rw [e, hq]
      decide

theorem run_cancel (P : Params) (i : Nat) (hi : i < P.kNumSwitches) (hold : List Inputs)
    (hp : ∀ inp ∈ hold, inp.pressed i = true) (u : Ui) (m : Nat)
    (hK : u.press_time_ i < 0 ∨
      (isOuroboros u.state.multimode = true ∧ (m : Int) ≤ u.press_time_ i)) :
    (run P hold u).state.segment_configuration i = u.state.segment_configuration i ∧
    ((run P hold u).press_time_ i < 0 ∨
      (isOuroboros (run P hold u).state.multimode = true ∧
        ((m + hold.length : Nat) : Int) ≤ (run P hold u).press_time_ i)) := by
  induction hold generalizing u m with
  | nil => exact ⟨rfl, hK⟩
  | cons inp rest ih =>
    obtain ⟨a1, a2⟩ := Poll_cancel P i hi inp (hp inp (List.mem_cons_self _ _)) u m hK
    obtain ⟨b1, b2⟩ := ih (fun x hx => hp x (List.mem_cons_of_mem _ hx)) (Poll P inp u)
      (m + 1) a2
    simp only [run, List.length_cons]
    have e : m + (rest.length + 1) = m + 1 + rest.length := by omega
    rw [e]
    exact ⟨by rw [b1, a1], b2⟩

/-- C14: cancellation between the two timers. In an Ouroboros mode, with the very
long threshold above the long one, holding switch `i` from `press_time_[i] = 0`
for at least `kLongPressDurationForMultiModeToggle` ticks and releasing it leaves
`segment_configuration[i]` unchanged, whatever the other switches do and whether
or not the mode changes during the hold. -/
theorem very_long_press_cancels (P : Params) (i : Nat) (hi : i < P.kNumSwitches)
    (hT : kLongPressDuration < P.kLongPressDurationForMultiModeToggle)
    (u : Ui) (hm : isOuroboros u.state.multimode = true) (hpt : u.press_time_ i = 0)
    (hold : List Inputs) (rel : Inputs)
    (hp : ∀ inp ∈ hold, inp.pressed i = true) (hr : rel.pressed i = false)
    (hk : P.kLongPressDurationForMultiModeToggle ≤ (hold.length : Int)) :
    (run P (hold ++ [rel]) u).state.segment_configuration i =
      u.state.segment_configuration i := by
  obtain ⟨a1, a2⟩ := run_cancel P i hi hold hp u 0 (Or.inr ⟨hm, by rw [hpt]; rfl⟩)
  simp only [Nat.zero_add] at a2
  simp only [run_append, run]
  rw [Poll_config, ← a1]
  split_ifs with h
  · simp only [hi, if_true, hr, bankAConfig, Bool.false_eq_true, if_false]
    simp only [kLongPressDuration] at hT ⊢
    rcases a2 with h2 | ⟨_, h2⟩
    · split_ifs <;> first | rfl | omega
    · split_ifs <;> first | rfl | omega
  · rfl

/-- C14, instance: switch 4 of the six-switch device held for 5000 ticks from rest
in Ouroboros mode, then released: its byte is unchanged. -/
theorem very_long_press_cancels_witness :
    (run demoParams (List.replicate 5000 (pressOnly 4) ++ [pressNone])
      (demoUi MULTI_MODE_OUROBOROS 0x25)).state.segment_configuration 4 =
      (demoUi MULTI_MODE_OUROBOROS 0x25).state.segment_configuration 4 :=
  very_long_press_cancels demoParams 4 (by decide) (by decide)
    (demoUi MULTI_MODE_OUROBOROS 0x25) rfl rfl (List.replicate 5000 (pressOnly 4)) pressNone
    (fun inp h => by rw [List.eq_of_mem_replicate h]; rfl) rfl
    (by rw [List.length_replicate]; decide)

/-! ## C15 and C16 -/

/-- The value of `FadePattern` as the fold of the 5-bit counter. -/
theorem FadePattern_eq (ms shift phase : Nat) :
    FadePattern ms shift phase =
      if (((ms >>> shift) % 256) + phase) % 32 ≤ 16 then (((ms >>> shift) % 256) + phase) % 32
      else 31 - (((ms >>> shift) % 256) + phase) % 32 := by
  have h31 : ∀ x : Nat, x &&& 0x1f = x % 32 := fun x => Nat.and_pow_two_sub_one_eq_mod x 5
  have e : (((ms >>> shift) % 256 + phase) % 256) &&& 0x1f =
      (((ms >>> shift) % 256) + phase) % 32 := by
    rw [h31]; omega
  simp only [FadePattern, e]

/-- C15: `FadePattern` equals the folded 5-bit counter. For every shift, phase and
clock value, with `c = (((ms >> shift) mod 256) + phase) mod 32`, the result is `c`
when `c ≤ 16` and `31 - c` otherwise; it lies in `0..16`; and between two
evaluations with counters `c ≤ c'` the value does not decrease when `c' ≤ 16` and
does not increase when `16 ≤ c`. -/
theorem FadePattern_fold (ms shift phase : Nat) :
    FadePattern ms shift phase =
      (if (((ms >>> shift) % 256) + phase) % 32 ≤ 16 then (((ms >>> shift) % 256) + phase) % 32
        else 31 - (((ms >>> shift) % 256) + phase) % 32) ∧
    FadePattern ms shift phase ≤ 16 ∧
    ∀ ms2 shift2 phase2 : Nat,
      ((((ms >>> shift) % 256) + phase) % 32 ≤ (((ms2 >>> shift2) % 256) + phase2) % 32 →
        (((ms2 >>> shift2) % 256) + phase2) % 32 ≤ 16 →
        FadePattern ms shift phase ≤ FadePattern ms2 shift2 phase2) ∧
      (16 ≤ (((ms >>> shift) % 256) + phase) % 32 →
        (((ms >>> shift) % 256) + phase) % 32 ≤ (((ms2 >>> shift2) % 256) + phase2) % 32 →
        FadePattern ms2 shift2 phase2 ≤ FadePattern ms shift phase) := by
  refine ⟨FadePattern_eq ms shift phase, ?_, fun ms2 shift2 phase2 => ⟨fun h1 h2 => ?_,
    fun h1 h2 => ?_⟩⟩
  · rw [FadePattern_eq]; split_ifs <;> omega
  · rw [FadePattern_eq, FadePattern_eq]; split_ifs <;> omega
  · rw [FadePattern_eq, FadePattern_eq]; split_ifs <;> omega

/-- C16, counterexample: at counter position 15 (clock 15, shift 0, phase 0) the
value is 15, while at the mirrored position 31 - 15 = 16 it is 16. -/
theorem FadePattern_not_mirrored :
    (((15 >>> 0) % 256) + 0) % 32 = 15 ∧ (((16 >>> 0) % 256) + 0) % 32 = 31 - 15 ∧
    FadePattern 15 0 0 = 15 ∧ FadePattern 16 0 0 = 16 := by
  decide

/-- C16 (amended): for two evaluations of `FadePattern` whose 5-bit counters are
`c` and the mirrored position `31 - c`, the values are equal whenever `c` is
neither 15 nor 16; the ramp peaks at 16 on the single position 16 and steps from
16 to 14 on the way down. -/
theorem FadePattern_mirror (ms shift phase ms2 shift2 phase2 : Nat)
    (hmirror : (((ms2 >>> shift2) % 256) + phase2) % 32 =
      31 - (((ms >>> shift) % 256) + phase) % 32)
    (h15 : (((ms >>> shift) % 256) + phase) % 32 ≠ 15)
    (h16 : (((ms >>> shift) % 256) + phase) % 32 ≠ 16) :
    FadePattern ms2 shift2 phase2 = FadePattern ms shift phase := by
  rw [FadePattern_eq, FadePattern_eq, hmirror]
  split_ifs <;> omega

/-- C16 (amended), instance: positions 3 and 28 give the same value. -/
theorem FadePattern_mirror_witness : FadePattern 28 0 0 = FadePattern 3 0 0 :=
  FadePattern_mirror 3 0 0 28 0 0 (by decide) (by decide) (by decide)

/-! ## C17 -/

/-- C17: single highlight across the chain. During discovery, for a chain of
`s ≥ 1` devices with `K ≥ 2` channels each (`2 * s * K` within `size_t`), all
reading the same clock value and none in factory test, there are a device index
`d0 < s` and a channel `j0 < K` such that device `d0` lights exactly indicator LED
`j0` (yellow) and slider LED `j0` (green), and every other device of the chain
renders all its LEDs off. -/
theorem single_highlight (P : Params) (s ms : Nat) (hs : 1 ≤ s) (hK : 2 ≤ P.kNumChannels)
    (hov : 2 * (s * P.kNumChannels) ≤ 4294967296)
    (chain : Nat → Chain) (us : Nat → Ui)
    (hdev : ∀ d, d < s → (chain d).discovering_neighbors = true ∧ (chain d).size = s ∧
      (chain d).index = d ∧ (us d).mode_ ≠ UI_MODE_FACTORY_TEST ∧ (us d).milliseconds = ms) :
    ∃ d0 j0, d0 < s ∧ j0 < P.kNumChannels ∧ ∀ d, d < s →
      (∀ j, (UpdateLEDs P (chain d) (us d)).leds_.ui j =
        if d = d0 ∧ j = j0 then LED_COLOR_YELLOW else LED_COLOR_OFF) ∧
      (∀ j, (UpdateLEDs P (chain d) (us d)).leds_.slider j =
        if d = d0 ∧ j = j0 then LED_COLOR_GREEN else LED_COLOR_OFF) := by
  have hKpos : 0 < P.kNumChannels := by omega
  have hn : 2 ≤ s * P.kNumChannels :=
    le_trans hK (Nat.le_mul_of_pos_left _ hs)
  have hc : (ms >>> 5) % (2 * (s * P.kNumChannels) - 2) < 2 * (s * P.kNumChannels) - 2 :=
    Nat.mod_lt _ (by omega)
  generalize hg : (if (ms >>> 5) % (2 * (s * P.kNumChannels) - 2) < s * P.kNumChannels
    then (ms >>> 5) % (2 * (s * P.kNumChannels) - 2)
    else 2 * (s * P.kNumChannels) - 2 - (ms >>> 5) % (2 * (s * P.kNumChannels) - 2)) = g
  have hgn : g < s * P.kNumChannels := by
    rw [← hg]; split_ifs <;> omega
  have hdm := Nat.div_add_mod g P.kNumChannels
  have hmod := Nat.mod_lt g hKpos
  refine ⟨g / P.kNumChannels, g % P.kNumChannels,
    (Nat.div_lt_iff_lt_mul hKpos).mpr hgn, hmod, fun d hd => ?_⟩
  obtain ⟨e1, e2, e3, e4, e5⟩ := hdev d hd
  have hdK : d * P.kNumChannels < s * P.kNumChannels :=
    Nat.mul_lt_mul_of_pos_right hd hKpos
  obtain ⟨a, b⟩ := UpdateLEDs_discovery P (chain d) (us d) e4 e1
    (by rw [e2]; exact hn) (by rw [e2]; exact hov) (by rw [e3]; omega)
  simp only [e2, e3, e5, hg] at a b
  have hlit : (d * P.kNumChannels ≤ g ∧ g < (d + 1) * P.kNumChannels) ↔
      d = g / P.kNumChannels := by
    constructor
    · intro h
      exact (Nat.div_eq_of_lt_le h.1 h.2).symm
    · intro h
      subst h
      have h1 := Nat.div_mul_le_self g P.kNumChannels
      have h2 : (g / P.kNumChannels + 1) * P.kNumChannels =
          g / P.kNumChannels * P.kNumChannels + P.kNumChannels := by ring
      have h3 : g / P.kNumChannels * P.kNumChannels = P.kNumChannels * (g / P.kNumChannels) :=
        Nat.mul_comm _ _
      exact ⟨h1, by omega⟩
  have hidx : d = g / P.kNumChannels → g - d * P.kNumChannels = g % P.kNumChannels := by
    intro h
    subst h
    have h3 : g / P.kNumChannels * P.kNumChannels = P.kNumChannels * (g / P.kNumChannels) :=
      Nat.mul_comm _ _
    omega
  constructor
  · intro j
    rw [a j]
    by_cases h : d = g / P.kNumChannels
    · have hl := hlit.mpr h
      have hi := hidx h
      by_cases hj : j = g % P.kNumChannels
      · rw [if_pos ⟨hl, by rw [hi]; exact hj⟩, if_pos ⟨h, hj⟩]
      · rw [if_neg (fun x => hj (by rw [← hi]; exact x.2)), if_neg (fun x => hj x.2)]
    · have : ¬ (d * P.kNumChannels ≤ g ∧ g < (d + 1) * P.kNumChannels) :=
        fun hl => h (hlit.mp hl)
      rw [if_neg (fun x => this x.1), if_neg (fun x => h x.1)]
  · intro j
    rw [b j]
    by_cases h : d = g / P.kNumChannels
    · have hl := hlit.mpr h
      have hi := hidx h
      by_cases hj : j = g % P.kNumChannels
      · rw [if_pos ⟨hl, by rw [hi]; exact hj⟩, if_pos ⟨h, hj⟩]
      · rw [if_neg (fun x => hj (by rw [← hi]; exact x.2)), if_neg (fun x => hj x.2)]
    · have : ¬ (d * P.kNumChannels ≤ g ∧ g < (d + 1) * P.kNumChannels) :=
        fun hl => h (hlit.mp hl)
      rw [if_neg (fun x => this x.1), if_neg (fun x => h x.1)]

/-- C17, instance: a chain of two six-channel devices at clock 0. -/
theorem single_highlight_witness :
    ∃ d0 j0, d0 < 2 ∧ j0 < demoParams.kNumChannels ∧ ∀ d, d < 2 →
      (∀ j, (UpdateLEDs demoParams (discoveryChain 2 d)
          (demoUi MULTI_MODE_STAGES 0)).leds_.ui j =
        if d = d0 ∧ j = j0 then LED_COLOR_YELLOW else LED_COLOR_OFF) ∧
      (∀ j, (UpdateLEDs demoParams (discoveryChain 2 d)
          (demoUi MULTI_MODE_STAGES 0)).leds_.slider j =
        if d = d0 ∧ j = j0 then LED_COLOR_GREEN else LED_COLOR_OFF) :=
  single_highlight demoParams 2 0 (by decide) (by decide) (by decide)
    (fun d => discoveryChain 2 d) (fun _ => demoUi MULTI_MODE_STAGES 0)
    (fun _ _ => ⟨rfl, rfl, rfl, fun h => UiMode.noConfusion h, rfl⟩)

/-! ## C18 and C19 -/

/-- The indicator LED of channel `j` after a pass through the stage-family
branch is the one set by the loop body for `j`. -/
theorem UpdateLEDs_stage_ui (P : Params) (chain : Chain) (u : Ui)
    (hmode : u.mode_ ≠ UI_MODE_FACTORY_TEST) (hdisc : chain.discovering_neighbors = false)
    (hexp : u.displaying_multimode_toggle_ = 0)
    (hm : u.state.multimode = MULTI_MODE_STAGES ∨
      u.state.multimode = MULTI_MODE_STAGES_SLOW_LFO ∨
      u.state.multimode = MULTI_MODE_OUROBOROS ∨
      u.state.multimode = MULTI_MODE_OUROBOROS_ALTERNATE)
    (j : Nat) (hj : j < P.kNumChannels) :
    (UpdateLEDs P chain u).leds_.ui j =
      (renderStageChannel chain u.state.multimode j u).leds_.ui j := by
  rw [UpdateLEDs_mode_leds P chain u hmode hdisc (by omega)]
  unfold renderMode
  rw [if_pos hm, renderStageFamily_leds]
  simp only [hj, if_true]
  exact renderStageChannel_frame chain _ j u Leds.Clear

set_option maxRecDepth 1000000 in
theorem byte_fields : ∀ c, c < 256 →
    (c % 256) &&& 0x3 = c &&& 0x3 ∧ ((c % 256) >>> 4) &&& 0x3 = (c >>> 4) &&& 0x3 ∧
    ((((c % 256) >>> 4) &&& 0x4 ≠ 0) ↔ c.testBit 6 = true) := by
  decide

/-- The indicator colour computed by the loop body when colour-blind mode is
off. -/
theorem renderStageChannel_plain (chain : Chain) (m : MultiMode) (j : Nat) (u : Ui)
    (hcb : u.state.color_blind ≠ 1) :
    (renderStageChannel chain m j u).leds_.ui j =
      if fade_patterns u.milliseconds
            (if isOuroboros m = true then
              (if ((u.state.segment_configuration j % 256) >>> 4) &&& 0x4 ≠ 0 then 3 else 0)
             else (chain.loop_status j).toNat) ≥ u.milliseconds &&& 0xf ∧
          fade_patterns u.milliseconds
            (if isOuroboros m = true then
              (if ((u.state.segment_configuration j % 256) >>> 4) &&& 0x4 ≠ 0 then 3 else 0)
             else (chain.loop_status j).toNat) ≠ 0
      then palette_ ((if isOuroboros m = true then (u.state.segment_configuration j % 256) >>> 4
        else u.state.segment_configuration j % 256) &&& 0x3)
      else LED_COLOR_OFF := by
  simp only [renderStageChannel, setUi, setSlider, hcb, if_false, Function.update_same]
  by_cases h : isOuroboros m = true <;> simp [h]

/-- C18: stage-family rendering without colour-blind mode. Outside factory test
and discovery, with the overlay expired and `color_blind ≠ 1`, indicator LED `j`
shows `palette_[type]` when `brightness ≥ (ms & 0xf)` and `brightness ≠ 0`, and is
off otherwise. In Stages and slow-LFO modes `type` is bits 0-1 of the byte and
`brightness` is `fade_patterns[loop_status(j)]`; in the Ouroboros modes `type` is
bits 4-5 and `brightness` is `fade_patterns[3]` or `fade_patterns[0]` according to
bit 6. With the selector NONE (brightness 0xf) the LED shows `palette_[type]` at
every clock value; the palette is green, yellow, red, off. -/
theorem stage_indicator (P : Params) (chain : Chain) (u : Ui) (j : Nat)
    (hj : j < P.kNumChannels)
    (hmode : u.mode_ ≠ UI_MODE_FACTORY_TEST) (hdisc : chain.discovering_neighbors = false)
    (hexp : u.displaying_multimode_toggle_ = 0) (hcb : u.state.color_blind ≠ 1)
    (hbyte : u.state.segment_configuration j < 256) :
    let c := u.state.segment_configuration j
    let pwm := u.milliseconds &&& 0xf
    let led := (UpdateLEDs P chain u).leds_.ui j
    (u.state.multimode = MULTI_MODE_STAGES ∨ u.state.multimode = MULTI_MODE_STAGES_SLOW_LFO →
      let b := fade_patterns u.milliseconds (chain.loop_status j).toNat
      led = (if b ≥ pwm ∧ b ≠ 0 then palette_ (c &&& 0x3) else LED_COLOR_OFF) ∧
      (chain.loop_status j = LOOP_STATUS_NONE → led = palette_ (c &&& 0x3))) ∧
    (u.state.multimode = MULTI_MODE_OUROBOROS ∨
        u.state.multimode = MULTI_MODE_OUROBOROS_ALTERNATE →
      let b := fade_patterns u.milliseconds (if c.testBit 6 = true then 3 else 0)
      led = (if b ≥ pwm ∧ b ≠ 0 then palette_ ((c >>> 4) &&& 0x3) else LED_COLOR_OFF) ∧
      (c.testBit 6 = false → led = palette_ ((c >>> 4) &&& 0x3))) ∧
    (palette_ 0 = LED_COLOR_GREEN ∧ palette_ 1 = LED_COLOR_YELLOW ∧
      palette_ 2 = LED_COLOR_RED ∧ palette_ 3 = LED_COLOR_OFF) := by
  obtain ⟨f1, f2, f3⟩ := byte_fields _ hbyte
  have hpwm : u.milliseconds &&& 0xf ≤ 15 := Nat.and_le_right
  refine ⟨fun hm => ?_, fun hm => ?_, rfl, rfl, rfl, rfl⟩
  · have ho : isOuroboros u.state.multimode = false := by
      rcases hm with h | h <;> rw [h] <;> rfl
    have e := UpdateLEDs_stage_ui P chain u hmode hdisc hexp
      (by rcases hm with h | h <;> simp [h]) j hj
    rw [renderStageChannel_plain chain _ j u hcb] at e
    simp only [ho, Bool.false_eq_true, if_false, f1] at e
    refine ⟨e, fun hn => ?_⟩
    rw [e, hn]
    have : fade_patterns u.milliseconds LOOP_STATUS_NONE.toNat = 15 := rfl
    rw [this, if_pos ⟨hpwm, by decide⟩]
  · have ho : isOuroboros u.state.multimode = true := by
      rcases hm with h | h <;> rw [h] <;> rfl
    have e := UpdateLEDs_stage_ui P chain u hmode hdisc hexp
      (by rcases hm with h | h <;> simp [h]) j hj
    rw [renderStageChannel_plain chain _ j u hcb] at e
    simp only [ho, if_true, f2] at e
    by_cases hb : (u.state.segment_configuration j).testBit 6 = true
    · simp only [f3.mpr hb, hb, if_true, ne_eq, not_false_eq_true] at e ⊢
      exact ⟨e, fun h => by cases h⟩
    · have hb2 : ¬ (((u.state.segment_configuration j % 256) >>> 4) &&& 0x4 ≠ 0) :=
        fun h => hb (f3.mp h)
      simp only [hb2, hb, if_false] at e ⊢
      refine ⟨e, fun _ => ?_⟩
      rw [e]
      have : fade_patterns u.milliseconds 0 = 15 := rfl
      rw [this, if_pos ⟨hpwm, by decide⟩]

/-- C18, instance: channel 0 of the six-channel device in Stages mode, byte 1,
loop status NONE: the indicator LED is yellow. -/
theorem stage_indicator_witness :
    (UpdateLEDs demoParams demoChain (demoUi MULTI_MODE_STAGES 1)).leds_.ui 0 =
      LED_COLOR_YELLOW :=
  (((stage_indicator demoParams demoChain (demoUi MULTI_MODE_STAGES 1) 0 (by decide)
    (by decide) rfl rfl (by decide) (by decide)).1 (Or.inl rfl)).2 rfl).trans rfl

/-- The indicator colour computed by the loop body in colour-blind mode for a
channel of type 1 or 2. -/
theorem renderStageChannel_blind (chain : Chain) (m : MultiMode) (j : Nat) (u : Ui)
    (hcb : u.state.color_blind = 1) :
    let cfg := if isOuroboros m = true then (u.state.segment_configuration j % 256) >>> 4
      else u.state.segment_configuration j % 256
    let b := fade_patterns u.milliseconds
      (if isOuroboros m = true then (if cfg &&& 0x4 ≠ 0 then 3 else 0)
       else (chain.loop_status j).toNat)
    (cfg &&& 0x3 = 1 → (renderStageChannel chain m j u).leds_.ui j =
      if b ≥ 0x8 then LED_COLOR_YELLOW else LED_COLOR_OFF) ∧
    (cfg &&& 0x3 = 2 → (renderStageChannel chain m j u).leds_.ui j =
      if b ≥ 0xc ∧ u.milliseconds &&& 0xf ≤ 1 then LED_COLOR_RED else LED_COLOR_OFF) := by
  have hpwm : u.milliseconds &&& 0xf ≤ 15 := Nat.and_le_right
  constructor
  · intro ht
    simp only [renderStageChannel, setUi, setSlider, hcb, if_true, Function.update_same, ht]
    simp only [show ¬ (1 = 0) by decide, if_false]
    split_ifs <;> first | rfl | omega
  · intro ht
    simp only [renderStageChannel, setUi, setSlider, hcb, if_true, Function.update_same, ht]
    simp only [show ¬ (2 = 0) by decide, show ¬ (2 = 1) by decide, if_false]
    split_ifs <;> first | rfl | omega

theorem red_implies_yellow (x pwm : Nat)
    (h : (if x ≥ 12 ∧ pwm ≤ 1 then LED_COLOR_RED else LED_COLOR_OFF) = LED_COLOR_RED) :
    (if x ≥ 8 then LED_COLOR_YELLOW else LED_COLOR_OFF) = LED_COLOR_YELLOW := by
  by_cases hx : x ≥ 12 ∧ pwm ≤ 1
  · rw [if_pos (by omega)]
  · rw [if_neg hx] at h; cases h

/-- C19: colour-blind stage-family rendering. With `color_blind = 1`, `ty j` the
type of channel `j` (bits 0-1 of its byte in the Stages modes, bits 4-5 in the
Ouroboros modes) and `br j` its selected fade-pattern brightness: a type-1 channel
shows yellow when `br j ≥ 8`, at every PWM phase, and is off otherwise; a type-2
channel shows red when `br j ≥ 12` and `(ms & 0xf) ≤ 1`, and is off otherwise; so
with equal brightness the red LED is lit only when the yellow one is lit. -/
theorem colour_blind_indicator (P : Params) (chain : Chain) (u : Ui)
    (hmode : u.mode_ ≠ UI_MODE_FACTORY_TEST) (hdisc : chain.discovering_neighbors = false)
    (hexp : u.displaying_multimode_toggle_ = 0)
    (hm : u.state.multimode = MULTI_MODE_STAGES ∨
      u.state.multimode = MULTI_MODE_STAGES_SLOW_LFO ∨
      u.state.multimode = MULTI_MODE_OUROBOROS ∨
      u.state.multimode = MULTI_MODE_OUROBOROS_ALTERNATE)
    (hcb : u.state.color_blind = 1) :
    let cfg := fun i =>
      if isOuroboros u.state.multimode = true then (u.state.segment_configuration i % 256) >>> 4
      else u.state.segment_configuration i % 256
    let ty := fun i => cfg i &&& 0x3
    let br := fun i => fade_patterns u.milliseconds
      (if isOuroboros u.state.multimode = true then (if cfg i &&& 0x4 ≠ 0 then 3 else 0)
       else (chain.loop_status i).toNat)
    let led := fun i => (UpdateLEDs P chain u).leds_.ui i
    (∀ j, j < P.kNumChannels → ty j = 1 →
      led j = if br j ≥ 8 then LED_COLOR_YELLOW else LED_COLOR_OFF) ∧
    (∀ j, j < P.kNumChannels → ty j = 2 →
      led j = if br j ≥ 12 ∧ u.milliseconds &&& 0xf ≤ 1 then LED_COLOR_RED
        else LED_COLOR_OFF) ∧
    (∀ j1 j2, j1 < P.kNumChannels → j2 < P.kNumChannels → ty j1 = 1 → ty j2 = 2 →
      br j1 = br j2 → led j2 = LED_COLOR_RED → led j1 = LED_COLOR_YELLOW) := by
  have h1 : ∀ j, j < P.kNumChannels → _ → _ := fun j hj =>
    ((renderStageChannel_blind chain u.state.multimode j u hcb).1)
  have h2 : ∀ j, j < P.kNumChannels → _ → _ := fun j hj =>
    ((renderStageChannel_blind chain u.state.multimode j u hcb).2)
  refine ⟨fun j hj ht => ?_, fun j hj ht => ?_, fun j1 j2 hj1 hj2 ht1 ht2 hb hred => ?_⟩
  · simp only
    rw [UpdateLEDs_stage_ui P chain u hmode hdisc hexp hm j hj]
    exact h1 j hj ht
  · simp only
    rw [UpdateLEDs_stage_ui P chain u hmode hdisc hexp hm j hj]
    exact h2 j hj ht
  · simp only at hred hb ⊢
    rw [UpdateLEDs_stage_ui P chain u hmode hdisc hexp hm j1 hj1, h1 j1 hj1 ht1]
    rw [UpdateLEDs_stage_ui P chain u hmode hdisc hexp hm j2 hj2, h2 j2 hj2 ht2] at hred
    rw [hb]
    exact red_implies_yellow _ _ hred

/-- C19, instance: channel 0 of the six-channel device in Stages mode with
colour-blind mode on, byte 1 (type 1), loop status NONE (brightness 15): yellow. -/
theorem colour_blind_indicator_witness :
    (UpdateLEDs demoParams demoChain (demoBlind MULTI_MODE_STAGES 1)).leds_.ui 0 =
      LED_COLOR_YELLOW :=
  ((colour_blind_indicator demoParams demoChain (demoBlind MULTI_MODE_STAGES 1) (by decide)
    rfl rfl (Or.inl rfl) rfl).1 0 (by decide) (by decide)).trans (by decide)

/-! ## C20 -/

/-- One tick keeps every Bank B counter at the sentinel or within the threshold. -/
theorem Poll_bankB_range (P : Params)
    (hT0 : 0 ≤ P.kLongPressDurationForMultiModeToggle)
    (hT32 : P.kLongPressDurationForMultiModeToggle < 2147483647)
    (inp : Inputs) (u : Ui)
    (h : ∀ i, i < P.kNumSwitches → u.press_time_multimode_toggle_ i = -1 ∨
      (0 ≤ u.press_time_multimode_toggle_ i ∧
        u.press_time_multimode_toggle_ i ≤ P.kLongPressDurationForMultiModeToggle)) :
    ∀ i, i < P.kNumSwitches → (Poll P inp u).press_time_multimode_toggle_ i = -1 ∨
      (0 ≤ (Poll P inp u).press_time_multimode_toggle_ i ∧
        (Poll P inp u).press_time_multimode_toggle_ i ≤
          P.kLongPressDurationForMultiModeToggle) := by
  intro i hi
  rw [(Poll_bankB P inp u).1]
  simp only [hi, if_true, bankBTime, bankBCount, incr32]
  have := h i hi
  split_ifs <;> omega

theorem run_bankB_range (P : Params)
    (hT0 : 0 ≤ P.kLongPressDurationForMultiModeToggle)
    (hT32 : P.kLongPressDurationForMultiModeToggle < 2147483647)
    (ins : List Inputs) (u : Ui)
    (h : ∀ i, i < P.kNumSwitches → u.press_time_multimode_toggle_ i = -1 ∨
      (0 ≤ u.press_time_multimode_toggle_ i ∧
        u.press_time_multimode_toggle_ i ≤ P.kLongPressDurationForMultiModeToggle)) :
    ∀ i, i < P.kNumSwitches → (run P ins u).press_time_multimode_toggle_ i = -1 ∨
      (0 ≤ (run P ins u).press_time_multimode_toggle_ i ∧
        (run P ins u).press_time_multimode_toggle_ i ≤
          P.kLongPressDurationForMultiModeToggle) := by
  induction ins generalizing u with
  | nil => exact h
  | cons inp rest ih => exact ih (Poll P inp u) (Poll_bankB_range P hT0 hT32 inp u h)

/-- C20: the Bank B counter invariant. With a non-negative threshold below the
largest `int32_t` value, in every state reached from `Init` by any sequence of
`Poll` ticks with arbitrary inputs, every `press_time_multimode_toggle_[i]`
(`i < kNumSwitches`) is the sentinel -1 or lies between 0 and the threshold, so
the counter never overflows however long a switch is held. -/
theorem bankB_counter_range (P : Params)
    (hT0 : 0 ≤ P.kLongPressDurationForMultiModeToggle)
    (hT32 : P.kLongPressDurationForMultiModeToggle < 2147483647)
    (settings : State) (held : Bool) (u : Ui) (ins : List Inputs)
    (i : Nat) (hi : i < P.kNumSwitches) :
    (run P ins (Init P settings held u)).press_time_multimode_toggle_ i = -1 ∨
      (0 ≤ (run P ins (Init P settings held u)).press_time_multimode_toggle_ i ∧
        (run P ins (Init P settings held u)).press_time_multimode_toggle_ i ≤
          P.kLongPressDurationForMultiModeToggle) := by
  apply run_bankB_range P hT0 hT32 ins _ _ i hi
  intro k hk
  right
  have e : (Init P settings held u).press_time_multimode_toggle_ k = 0 :=
    ((Init_fields P settings held u).1 k hk).2
  rw [e]
  exact ⟨le_refl _, hT0⟩

/-- C20, instance: on the six-switch device, after `Init` and 7000 ticks with
switch 2 held, the Bank B counter of switch 2 is -1 or within 0..5000. -/
theorem bankB_counter_range_witness :
    (run demoParams (List.replicate 7000 (pressOnly 2))
        (Init demoParams (demoUi MULTI_MODE_STAGES 0).state false
          (demoUi MULTI_MODE_STAGES 0))).press_time_multimode_toggle_ 2 = -1 ∨
      (0 ≤ (run demoParams (List.replicate 7000 (pressOnly 2))
          (Init demoParams (demoUi MULTI_MODE_STAGES 0).state false
            (demoUi MULTI_MODE_STAGES 0))).press_time_multimode_toggle_ 2 ∧
        (run demoParams (List.replicate 7000 (pressOnly 2))
          (Init demoParams (demoUi MULTI_MODE_STAGES 0).state false
            (demoUi MULTI_MODE_STAGES 0))).press_time_multimode_toggle_ 2 ≤
          demoParams.kLongPressDurationForMultiModeToggle) :=
  bankB_counter_range demoParams (by decide) (by decide) (demoUi MULTI_MODE_STAGES 0).state
    false (demoUi MULTI_MODE_STAGES 0) (List.replicate 7000 (pressOnly 2)) 2 (by decide)

end stages
